import Mathlib

/-!
# Verification of the rust-csrf core module

A shallow embedding of `src/core.rs` (double-submit-cookie CSRF protection
with three interchangeable cryptographic backends) and proofs of the
specification's claims about it.

Modelling conventions:

* Rust byte slices and arrays become `List Nat` (each element a byte value).
* Rust's indexed copy loops `for i in 0..n { dst[off+i] = src[i] }` become
  `writeRange?` and the read loops become `readRange?`; both are bounds
  checked and return `none` exactly when the Rust code would panic with an
  out-of-bounds index, so panics are observable in the model.  Consequently
  every fallible operation returns `Option (Except CsrfError _)`: the outer
  `Option` is the panic layer, the inner `Except` the Rust `Result`.
* The external cryptographic primitives (HMAC-SHA-256 from `crypto::hmac`,
  AES-256-GCM from `crypto::aes_gcm`, ChaCha20-Poly1305 from
  `crypto::chacha20poly1305`) are not part of this repository; they are
  abstracted as opaque functions stored in the backend structures, with the
  library's documented length contracts (32-byte MAC output, ciphertext
  length = plaintext length, 16-byte tag) appearing as hypotheses of the
  theorems that need them.
* The random source (`ring::rand::SystemRandom`) is modelled by passing each
  `random_bytes` draw explicitly as an `Option (List Nat)` argument: `none`
  models a failed draw (which the code maps to `InternalError`), `some bs`
  a successful draw filling the destination buffer.
* The clock (`time::precise_time_s() as i64`) is modelled by an explicit
  `now : Int` argument.
* The `unsafe { mem::transmute }` between `i64` and `[u8; 8]` is modelled as
  little-endian two's-complement (`i64ToLeBytes` / `i64OfLeBytes`), the
  behaviour on the little-endian targets the crate runs on.
-/

/-- Byte strings are lists of byte values. -/
abbrev Bytes := List Nat

/-- Bounds-checked model of the Rust read loop
`for i in 0..n { dst[i] = src[off + i] }` into a fresh `dst` of length `n`:
returns the `n` bytes of `src` starting at `off`, or `none` when the loop
would index out of bounds (a Rust panic). -/
def readRange? (src : Bytes) (off n : Nat) : Option Bytes :=
  if off + n ≤ src.length then some ((src.drop off).take n) else none

/-- Bounds-checked model of the Rust write loop
`for i in 0..n { dst[off + i] = src[i] }`: overwrites `n` bytes of `dst`
starting at `off` with the first `n` bytes of `src`, or `none` when the loop
would index out of bounds in `src` or `dst` (a Rust panic). -/
def writeRange? (dst : Bytes) (off : Nat) (src : Bytes) (n : Nat) : Option Bytes :=
  if n ≤ src.length ∧ off + n ≤ dst.length then
    some (dst.take off ++ src.take n ++ dst.drop (off + n))
  else none

/-- Little-endian two's-complement encoding of an `i64` into 8 bytes,
modelling `unsafe { mem::transmute::<i64, [u8; 8]>(expires) }` on a
little-endian target.  Out-of-range inputs wrap modulo `2^64`, matching
Rust's wrapping arithmetic representation. -/
def i64ToLeBytes (x : Int) : Bytes :=
  (List.range 8).map (fun i => (x % (2:Int)^64).toNat / 256^i % 256)

/-- Value of a little-endian byte string as a natural number. -/
def leBytesToNat (bs : Bytes) : Nat :=
  bs.foldr (fun b acc => b + 256 * acc) 0

/-- Little-endian two's-complement decoding of 8 bytes into an `i64`,
modelling `unsafe { mem::transmute::<[u8; 8], i64>(expires_bytes) }` on a
little-endian target. -/
def i64OfLeBytes (bs : Bytes) : Int :=
  let u := leBytesToNat bs
  if u < 2^63 then (u : Int) else (u : Int) - 2^64

/-- The two CSRF error kinds (`enum CsrfError`). -/
inductive CsrfError where
  | InternalError
  | ValidationFailure
deriving DecidableEq, Repr

deriving instance DecidableEq for Except

/-- `struct CsrfToken`: an encoded token as sent to end users. -/
structure CsrfToken where
  bytes : Bytes
deriving DecidableEq, Repr

/-- `struct CsrfCookie`: an encoded cookie as sent to end users. -/
structure CsrfCookie where
  bytes : Bytes
deriving DecidableEq, Repr

/-- `struct UnencryptedCsrfToken`: the decoded token, holding the recovered
64-byte secret value. -/
structure UnencryptedCsrfToken where
  token : Bytes
deriving DecidableEq, Repr

/-- `struct UnencryptedCsrfCookie`: the decoded cookie, holding the expiry
timestamp and the recovered 64-byte secret value. -/
structure UnencryptedCsrfCookie where
  expires : Int
  token : Bytes
deriving DecidableEq, Repr

/-- `CsrfProtection::verify_token_pair` (trait default method): true iff the
token's and the cookie's secrets are byte-equal and the cookie has not
expired.  The current time (`time::precise_time_s() as i64`) is the explicit
`now` argument; the method reads neither key material nor any backend state
and performs no cryptography. -/
def verify_token_pair (now : Int) (token : UnencryptedCsrfToken)
    (cookie : UnencryptedCsrfCookie) : Bool :=
  let tokens_match := token.token == cookie.token
  let not_expired := decide (cookie.expires > now)
  tokens_match && not_expired

/-- `HmacCsrfProtection`: the HMAC-SHA-256 backend.  The external primitive
`Hmac::<Sha256>::new(key).input(m).result().code()` is abstracted as the
function `hmacSha256` with the instance's 32-byte key already bound; the
library contract that its output is 32 bytes appears as a hypothesis where
needed. -/
structure HmacCsrfProtection where
  hmacSha256 : Bytes → Bytes

namespace HmacCsrfProtection

/-- `HmacCsrfProtection::generate_cookie`: computes
`expires = now + ttl_seconds`, MACs `token_value ‖ expires_bytes` and packs
`token_value(64) ‖ expires_le(8) ‖ mac(32)` into a 104-byte transport. -/
def generate_cookie (p : HmacCsrfProtection) (now : Int) (token_value : Bytes)
    (ttl_seconds : Int) : Option (Except CsrfError CsrfCookie) := do
  let expires := now + ttl_seconds
  let expires_bytes := i64ToLeBytes expires
  let code := p.hmacSha256 (token_value ++ expires_bytes)
  let t0 := List.replicate 104 0
  let t1 ← writeRange? t0 0 token_value 64
  let t2 ← writeRange? t1 64 expires_bytes 8
  let t3 ← writeRange? t2 72 code 32
  return .ok ⟨t3⟩

/-- `HmacCsrfProtection::generate_token`: MACs the 64-byte `token_value`
and packs `token_value(64) ‖ mac(32)` into a 96-byte transport. -/
def generate_token (p : HmacCsrfProtection) (token_value : Bytes) :
    Option (Except CsrfError CsrfToken) := do
  let code := p.hmacSha256 token_value
  let t0 := List.replicate 96 0
  let t1 ← writeRange? t0 0 token_value 64
  let t2 ← writeRange? t1 64 code 32
  return .ok ⟨t2⟩

/-- `HmacCsrfProtection::parse_cookie`: length check (104), split at fixed
offsets, recompute the MAC over `secret ‖ expires_le` and compare with the
carried tag. -/
def parse_cookie (p : HmacCsrfProtection) (cookie : Bytes) :
    Option (Except CsrfError UnencryptedCsrfCookie) :=
  if cookie.length ≠ 104 then some (.error .ValidationFailure)
  else do
    let cookie_bytes ← readRange? cookie 0 64
    let expires_bytes ← readRange? cookie 64 8
    let code ← readRange? cookie 72 32
    let result := p.hmacSha256 (cookie_bytes ++ expires_bytes)
    if result ≠ code then
      return .error .ValidationFailure
    else
      return .ok ⟨i64OfLeBytes expires_bytes, cookie_bytes⟩

/-- `HmacCsrfProtection::parse_token`: length check (96), split at fixed
offsets, recompute the MAC over the secret and compare with the carried
tag. -/
def parse_token (p : HmacCsrfProtection) (token : Bytes) :
    Option (Except CsrfError UnencryptedCsrfToken) :=
  if token.length ≠ 96 then some (.error .ValidationFailure)
  else do
    let token_bytes ← readRange? token 0 64
    let code ← readRange? token 64 32
    let result := p.hmacSha256 token_bytes
    if result ≠ code then
      return .error .ValidationFailure
    else
      return .ok ⟨token_bytes⟩

end HmacCsrfProtection

/-- An AEAD primitive with the key and nonce already bound, abstracting
`crypto::aead::{AeadEncryptor, AeadDecryptor}`.  `encrypt pt` yields the
ciphertext/tag pair written into the caller's buffers; `decrypt ct tag`
yields the recovered plaintext on tag success and `none` on authentication
failure.  The library contracts (ciphertext length = plaintext length,
16-byte tag, recovered plaintext length = ciphertext length) appear as
hypotheses of the theorems that need them. -/
structure AeadPrim where
  encrypt : Bytes → Bytes × Bytes
  decrypt : Bytes → Bytes → Option Bytes

/-- `AesGcmCsrfProtection`: the AES-256-GCM backend.  `aead nonce` models
`AesGcm::new(KeySize256, key, nonce, [])` with the instance's 32-byte key
already bound. -/
structure AesGcmCsrfProtection where
  aead : Bytes → AeadPrim

namespace AesGcmCsrfProtection

/-- `AesGcmCsrfProtection::generate_cookie`: draw a 12-byte nonce and 16
bytes of padding (each draw may fail, giving `InternalError`), build the
88-byte plaintext `padding(16) ‖ expires_le(8) ‖ secret(64)`, encrypt, and
pack `ciphertext(88) ‖ nonce(12) ‖ tag(16)` into a 116-byte transport. -/
def generate_cookie (p : AesGcmCsrfProtection) (now : Int)
    (nonceDraw padDraw : Option Bytes) (token_value : Bytes)
    (ttl_seconds : Int) : Option (Except CsrfError CsrfCookie) :=
  let expires := now + ttl_seconds
  let expires_bytes := i64ToLeBytes expires
  match nonceDraw with
  | none => some (.error .InternalError)
  | some nonce =>
    match padDraw with
    | none => some (.error .InternalError)
    | some padding => do
      let pt0 := List.replicate 88 0
      let pt1 ← writeRange? pt0 0 padding 16
      let pt2 ← writeRange? pt1 16 expires_bytes 8
      let plaintext ← writeRange? pt2 24 token_value 64
      let ct := (p.aead nonce).encrypt plaintext
      let t0 := List.replicate 116 0
      let t1 ← writeRange? t0 0 ct.1 88
      let t2 ← writeRange? t1 88 nonce 12
      let t3 ← writeRange? t2 100 ct.2 16
      return .ok ⟨t3⟩

/-- `AesGcmCsrfProtection::generate_token`: draw a 12-byte nonce and 16
bytes of padding, build the 80-byte plaintext `padding(16) ‖ secret(64)`,
encrypt, and pack `ciphertext(80) ‖ nonce(12) ‖ tag(16)` into a 108-byte
transport. -/
def generate_token (p : AesGcmCsrfProtection) (nonceDraw padDraw : Option Bytes)
    (token_value : Bytes) : Option (Except CsrfError CsrfToken) :=
  match nonceDraw with
  | none => some (.error .InternalError)
  | some nonce =>
    match padDraw with
    | none => some (.error .InternalError)
    | some padding => do
      let pt0 := List.replicate 80 0
      let pt1 ← writeRange? pt0 0 padding 16
      let plaintext ← writeRange? pt1 16 token_value 64
      let ct := (p.aead nonce).encrypt plaintext
      let t0 := List.replicate 108 0
      let t1 ← writeRange? t0 0 ct.1 80
      let t2 ← writeRange? t1 80 nonce 12
      let t3 ← writeRange? t2 92 ct.2 16
      return .ok ⟨t3⟩

/-- `AesGcmCsrfProtection::parse_cookie`: length check (116), split into
`ciphertext(88) ‖ nonce(12) ‖ tag(16)` at fixed offsets,
authenticate-and-decrypt, reject on tag mismatch, then read
`expires_le` at 16..24 and the secret at 24..88 of the plaintext (skipping
the 16 bytes of padding). -/
def parse_cookie (p : AesGcmCsrfProtection) (cookie : Bytes) :
    Option (Except CsrfError UnencryptedCsrfCookie) :=
  if cookie.length ≠ 116 then some (.error .ValidationFailure)
  else do
    let ciphertext ← readRange? cookie 0 88
    let nonce ← readRange? cookie 88 12
    let tag ← readRange? cookie 100 16
    match (p.aead nonce).decrypt ciphertext tag with
    | none => return .error .ValidationFailure
    | some plaintext => do
      let expires_bytes ← readRange? plaintext 16 8
      let token ← readRange? plaintext 24 64
      return .ok ⟨i64OfLeBytes expires_bytes, token⟩

/-- `AesGcmCsrfProtection::parse_token`: length check (108), split into
`ciphertext(80) ‖ nonce(12) ‖ tag(16)` at fixed offsets,
authenticate-and-decrypt, reject on tag mismatch, then read the secret at
16..80 of the plaintext (skipping the 16 bytes of padding). -/
def parse_token (p : AesGcmCsrfProtection) (token : Bytes) :
    Option (Except CsrfError UnencryptedCsrfToken) :=
  if token.length ≠ 108 then some (.error .ValidationFailure)
  else do
    let ciphertext ← readRange? token 0 80
    let nonce ← readRange? token 80 12
    let tag ← readRange? token 92 16
    match (p.aead nonce).decrypt ciphertext tag with
    | none => return .error .ValidationFailure
    | some plaintext => do
      let tok ← readRange? plaintext 16 64
      return .ok ⟨tok⟩

end AesGcmCsrfProtection

/-- `ChaCha20Poly1305CsrfProtection`: the ChaCha20-Poly1305 backend.
`aead nonce` models `ChaCha20Poly1305::new(key, nonce, [])` with the
instance's 32-byte key already bound; the nonce is 8 bytes. -/
structure ChaCha20Poly1305CsrfProtection where
  aead : Bytes → AeadPrim

namespace ChaCha20Poly1305CsrfProtection

/-- `ChaCha20Poly1305CsrfProtection::generate_cookie`: identical to the
AES-GCM layout except the nonce is 8 bytes:
`ciphertext(88) ‖ nonce(8) ‖ tag(16)` in a 112-byte transport. -/
def generate_cookie (p : ChaCha20Poly1305CsrfProtection) (now : Int)
    (nonceDraw padDraw : Option Bytes) (token_value : Bytes)
    (ttl_seconds : Int) : Option (Except CsrfError CsrfCookie) :=
  let expires := now + ttl_seconds
  let expires_bytes := i64ToLeBytes expires
  match nonceDraw with
  | none => some (.error .InternalError)
  | some nonce =>
    match padDraw with
    | none => some (.error .InternalError)
    | some padding => do
      let pt0 := List.replicate 88 0
      let pt1 ← writeRange? pt0 0 padding 16
      let pt2 ← writeRange? pt1 16 expires_bytes 8
      let plaintext ← writeRange? pt2 24 token_value 64
      let ct := (p.aead nonce).encrypt plaintext
      let t0 := List.replicate 112 0
      let t1 ← writeRange? t0 0 ct.1 88
      let t2 ← writeRange? t1 88 nonce 8
      let t3 ← writeRange? t2 96 ct.2 16
      return .ok ⟨t3⟩

/-- `ChaCha20Poly1305CsrfProtection::generate_token`: identical to the
AES-GCM layout except the nonce is 8 bytes:
`ciphertext(80) ‖ nonce(8) ‖ tag(16)` in a 104-byte transport. -/
def generate_token (p : ChaCha20Poly1305CsrfProtection)
    (nonceDraw padDraw : Option Bytes) (token_value : Bytes) :
    Option (Except CsrfError CsrfToken) :=
  match nonceDraw with
  | none => some (.error .InternalError)
  | some nonce =>
    match padDraw with
    | none => some (.error .InternalError)
    | some padding => do
      let pt0 := List.replicate 80 0
      let pt1 ← writeRange? pt0 0 padding 16
      let plaintext ← writeRange? pt1 16 token_value 64
      let ct := (p.aead nonce).encrypt plaintext
      let t0 := List.replicate 104 0
      let t1 ← writeRange? t0 0 ct.1 80
      let t2 ← writeRange? t1 80 nonce 8
      let t3 ← writeRange? t2 88 ct.2 16
      return .ok ⟨t3⟩

/-- `ChaCha20Poly1305CsrfProtection::parse_cookie`: length check (112),
split into `ciphertext(88) ‖ nonce(8) ‖ tag(16)`, authenticate-and-decrypt,
then read `expires_le` at 16..24 and the secret at 24..88 of the
plaintext. -/
def parse_cookie (p : ChaCha20Poly1305CsrfProtection) (cookie : Bytes) :
    Option (Except CsrfError UnencryptedCsrfCookie) :=
  if cookie.length ≠ 112 then some (.error .ValidationFailure)
  else do
    let ciphertext ← readRange? cookie 0 88
    let nonce ← readRange? cookie 88 8
    let tag ← readRange? cookie 96 16
    match (p.aead nonce).decrypt ciphertext tag with
    | none => return .error .ValidationFailure
    | some plaintext => do
      let expires_bytes ← readRange? plaintext 16 8
      let token ← readRange? plaintext 24 64
      return .ok ⟨i64OfLeBytes expires_bytes, token⟩

/-- `ChaCha20Poly1305CsrfProtection::parse_token`: length check (104),
split into `ciphertext(80) ‖ nonce(8) ‖ tag(16)`, authenticate-and-decrypt,
then read the secret at 16..80 of the plaintext. -/
def parse_token (p : ChaCha20Poly1305CsrfProtection) (token : Bytes) :
    Option (Except CsrfError UnencryptedCsrfToken) :=
  if token.length ≠ 104 then some (.error .ValidationFailure)
  else do
    let ciphertext ← readRange? token 0 80
    let nonce ← readRange? token 80 8
    let tag ← readRange? token 88 16
    match (p.aead nonce).decrypt ciphertext tag with
    | none => return .error .ValidationFailure
    | some plaintext => do
      let tok ← readRange? plaintext 16 64
      return .ok ⟨tok⟩

end ChaCha20Poly1305CsrfProtection

/-- The body shared by both arms of `CsrfProtection::generate_token_pair`
once the secret is in hand: call `generate_token` and `generate_cookie`
(abstracted as `gt` and `gc`, the current backend's methods with state,
clock and random draws already bound) with the same secret, pair the
successes, and collapse any error from either call to `ValidationFailure`. -/
def pair_from_secret (gt : Bytes → Option (Except CsrfError CsrfToken))
    (gc : Bytes → Int → Option (Except CsrfError CsrfCookie))
    (secret : Bytes) (ttl_seconds : Int) :
    Option (Except CsrfError (CsrfToken × CsrfCookie)) := do
  let rt ← gt secret
  let rc ← gc secret ttl_seconds
  match rt, rc with
  | .ok t, .ok c => return .ok (t, c)
  | _, _ => return .error .ValidationFailure

/-- `CsrfProtection::generate_token_pair` (trait default method): reuse the
previous secret when one is given, otherwise draw 64 fresh random bytes
(`randomDraw`; a failed draw yields `InternalError`), then generate the
token and cookie from that one secret via `pair_from_secret`. -/
def generate_token_pair (gt : Bytes → Option (Except CsrfError CsrfToken))
    (gc : Bytes → Int → Option (Except CsrfError CsrfCookie))
    (randomDraw : Option Bytes) (previous_token_value : Option Bytes)
    (ttl_seconds : Int) : Option (Except CsrfError (CsrfToken × CsrfCookie)) :=
  match previous_token_value with
  | some previous => pair_from_secret gt gc previous ttl_seconds
  | none =>
    match randomDraw with
    | none => some (.error .InternalError)
    | some fresh => pair_from_secret gt gc fresh ttl_seconds

/-! ## Helper lemmas about the byte-buffer primitives -/

theorem readRange?_eq (src pre mid post : Bytes) (off n : Nat)
    (hsrc : src = pre ++ mid ++ post) (hoff : off = pre.length)
    (hn : n = mid.length) :
    readRange? src off n = some mid := by
  subst hsrc hoff hn
  unfold readRange?
  rw [if_pos (by simp [List.length_append])]
  rw [List.append_assoc, List.drop_left, List.take_left]

theorem writeRange?_eq (dst pre mid post src : Bytes) (off n : Nat)
    (hdst : dst = pre ++ mid ++ post) (hoff : off = pre.length)
    (hn : n = src.length) (hm : mid.length = n) :
    writeRange? dst off src n = some (pre ++ src ++ post) := by
  subst hdst hoff hn
  unfold writeRange?
  rw [if_pos ⟨le_refl _, by simp [List.length_append]; omega⟩]
  have hdrop : (pre ++ (mid ++ post)).drop (pre.length + src.length) = post := by
    rw [← List.append_assoc]
    exact List.drop_left' (by simp [hm])
  simp only [List.append_assoc]
  rw [List.take_left, List.take_length, hdrop]

theorem readRange?_isSome (src : Bytes) (off n : Nat)
    (h : off + n ≤ src.length) :
    readRange? src off n = some ((src.drop off).take n) := by
  simp [readRange?, h]

theorem readRange?_length (src out : Bytes) (off n : Nat)
    (h : readRange? src off n = some out) : out.length = n := by
  unfold readRange? at h
  split at h
  · cases h
    next hle => simp; omega
  · cases h

/-! ## Little-endian i64 round trip -/

theorem i64ToLeBytes_length (x : Int) : (i64ToLeBytes x).length = 8 := by
  simp [i64ToLeBytes]

theorem leBytesToNat_i64ToLeBytes (x : Int) :
    leBytesToNat (i64ToLeBytes x) = ((x % (2:Int)^64)).toNat := by
  have h0 : 0 ≤ x % (2:Int)^64 := Int.emod_nonneg x (by norm_num)
  have h1 : x % (2:Int)^64 < 2^64 := Int.emod_lt_of_pos x (by norm_num)
  set u := (x % (2:Int)^64).toNat with hu
  have hlt : u < 2^64 := by omega
  unfold i64ToLeBytes leBytesToNat
  rw [← hu]
  norm_num [List.range_succ]
  omega

theorem i64_le_roundtrip (x : Int) (hlo : -(2:Int)^63 ≤ x) (hhi : x < 2^63) :
    i64OfLeBytes (i64ToLeBytes x) = x := by
  unfold i64OfLeBytes
  rw [leBytesToNat_i64ToLeBytes]
  have h0 : 0 ≤ x % (2:Int)^64 := Int.emod_nonneg x (by norm_num)
  have h1 : x % (2:Int)^64 < 2^64 := Int.emod_lt_of_pos x (by norm_num)
  have hcases : x % (2:Int)^64 = x ∨ x % (2:Int)^64 = x + 2^64 := by
    omega
  rcases hcases with h | h <;> · simp only [h]; split <;> omega

/-! ## Closed forms of the HMAC backend operations -/

namespace HmacCsrfProtection

theorem hmac_generate_token_eq (p : HmacCsrfProtection) (tv : Bytes)
    (h64 : tv.length = 64) (hmac32 : (p.hmacSha256 tv).length = 32) :
    p.generate_token tv = some (.ok ⟨tv ++ p.hmacSha256 tv⟩) := by
  have s1 : writeRange? (List.replicate 96 (0:Nat)) 0 tv 64
      = some (tv ++ List.replicate 32 0) := by
    have := writeRange?_eq (List.replicate 96 0) [] (List.replicate 64 0)
      (List.replicate 32 0) tv 0 64 (by simp) (by simp) h64.symm (by simp)
    simpa using this
  have s2 : writeRange? (tv ++ List.replicate 32 (0:Nat)) 64 (p.hmacSha256 tv) 32
      = some (tv ++ p.hmacSha256 tv) := by
    have := writeRange?_eq (tv ++ List.replicate 32 0) tv (List.replicate 32 0)
      [] (p.hmacSha256 tv) 64 32 (by simp) h64.symm hmac32.symm (by simp)
    simpa using this
  simp only [generate_token, Option.pure_def, Option.bind_eq_bind]
  rw [s1, Option.some_bind, s2, Option.some_bind]

theorem hmac_generate_cookie_eq (p : HmacCsrfProtection) (now : Int) (tv : Bytes)
    (ttl : Int) (h64 : tv.length = 64)
    (hmac32 : (p.hmacSha256 (tv ++ i64ToLeBytes (now + ttl))).length = 32) :
    p.generate_cookie now tv ttl =
      some (.ok ⟨tv ++ i64ToLeBytes (now + ttl) ++
        p.hmacSha256 (tv ++ i64ToLeBytes (now + ttl))⟩) := by
  set exp := i64ToLeBytes (now + ttl) with hexp
  have hexplen : exp.length = 8 := i64ToLeBytes_length _
  set code := p.hmacSha256 (tv ++ exp) with hcode
  have s1 : writeRange? (List.replicate 104 (0:Nat)) 0 tv 64
      = some (tv ++ List.replicate 40 0) := by
    have := writeRange?_eq (List.replicate 104 0) [] (List.replicate 64 0)
      (List.replicate 40 0) tv 0 64 (by simp) (by simp) h64.symm (by simp)
    simpa using this
  have s2 : writeRange? (tv ++ List.replicate 40 (0:Nat)) 64 exp 8
      = some (tv ++ exp ++ List.replicate 32 0) := by
    have := writeRange?_eq (tv ++ List.replicate 40 0) tv (List.replicate 8 0)
      (List.replicate 32 0) exp 64 8 (by simp) h64.symm hexplen.symm (by simp)
    simpa using this
  have s3 : writeRange? (tv ++ exp ++ List.replicate 32 (0:Nat)) 72 code 32
      = some (tv ++ exp ++ code) := by
    have := writeRange?_eq (tv ++ exp ++ List.replicate 32 0) (tv ++ exp)
      (List.replicate 32 0) [] code 72 32 (by simp) (by simp [h64, hexplen])
      hmac32.symm (by simp)
    simpa using this
  simp only [generate_cookie, Option.pure_def, Option.bind_eq_bind]
  rw [← hexp, ← hcode, s1, Option.some_bind, s2, Option.some_bind, s3,
    Option.some_bind]

theorem hmac_parse_token_roundtrip (p : HmacCsrfProtection) (tv : Bytes)
    (h64 : tv.length = 64) (hmac32 : (p.hmacSha256 tv).length = 32) :
    p.parse_token (tv ++ p.hmacSha256 tv) = some (.ok ⟨tv⟩) := by
  have hlen : (tv ++ p.hmacSha256 tv).length = 96 := by
    simp [h64, hmac32]
  have r1 : readRange? (tv ++ p.hmacSha256 tv) 0 64 = some tv :=
    readRange?_eq _ [] tv (p.hmacSha256 tv) 0 64 (by simp) (by simp) h64.symm
  have r2 : readRange? (tv ++ p.hmacSha256 tv) 64 32 = some (p.hmacSha256 tv) :=
    readRange?_eq _ tv (p.hmacSha256 tv) [] 64 32 (by simp) h64.symm hmac32.symm
  simp only [parse_token, Option.pure_def, Option.bind_eq_bind]
  rw [if_neg (by simp [hlen]), r1, Option.some_bind, r2, Option.some_bind,
    if_neg (by simp)]

theorem hmac_parse_cookie_roundtrip (p : HmacCsrfProtection) (tv exp : Bytes)
    (h64 : tv.length = 64) (hexplen : exp.length = 8)
    (hmac32 : (p.hmacSha256 (tv ++ exp)).length = 32) :
    p.parse_cookie (tv ++ exp ++ p.hmacSha256 (tv ++ exp)) =
      some (.ok ⟨i64OfLeBytes exp, tv⟩) := by
  set code := p.hmacSha256 (tv ++ exp) with hcode
  have hlen : (tv ++ exp ++ code).length = 104 := by
    simp [h64, hexplen, hmac32]
  have r1 : readRange? (tv ++ exp ++ code) 0 64 = some tv :=
    readRange?_eq _ [] tv (exp ++ code) 0 64 (by simp) (by simp) h64.symm
  have r2 : readRange? (tv ++ exp ++ code) 64 8 = some exp :=
    readRange?_eq _ tv exp code 64 8 (by simp) h64.symm hexplen.symm
  have r3 : readRange? (tv ++ exp ++ code) 72 32 = some code :=
    readRange?_eq _ (tv ++ exp) code [] 72 32 (by simp) (by simp [h64, hexplen])
      hmac32.symm
  simp only [parse_cookie, Option.pure_def, Option.bind_eq_bind]
  rw [if_neg (by simp [h64, hexplen, hmac32]), r1, Option.some_bind, r2,
    Option.some_bind, r3, Option.some_bind, if_neg (by simp [hcode])]

end HmacCsrfProtection

/-! ## Closed forms of the AES-256-GCM backend operations -/

namespace AesGcmCsrfProtection

theorem aes_generate_token_eq (p : AesGcmCsrfProtection) (nonce padding tv : Bytes)
    (h12 : nonce.length = 12) (h16 : padding.length = 16) (h64 : tv.length = 64)
    (hct : ((p.aead nonce).encrypt (padding ++ tv)).1.length = 80)
    (htag : ((p.aead nonce).encrypt (padding ++ tv)).2.length = 16) :
    p.generate_token (some nonce) (some padding) tv =
      some (.ok ⟨((p.aead nonce).encrypt (padding ++ tv)).1 ++ nonce ++
        ((p.aead nonce).encrypt (padding ++ tv)).2⟩) := by
  have s1 : writeRange? (List.replicate 80 (0:Nat)) 0 padding 16
      = some (padding ++ List.replicate 64 0) := by
    have := writeRange?_eq (List.replicate 80 0) [] (List.replicate 16 0)
      (List.replicate 64 0) padding 0 16 (by simp) (by simp) h16.symm (by simp)
    simpa using this
  have s2 : writeRange? (padding ++ List.replicate 64 (0:Nat)) 16 tv 64
      = some (padding ++ tv) := by
    have := writeRange?_eq (padding ++ List.replicate 64 0) padding
      (List.replicate 64 0) [] tv 16 64 (by simp) h16.symm h64.symm (by simp)
    simpa using this
  set c1 := ((p.aead nonce).encrypt (padding ++ tv)).1 with hc1
  set c2 := ((p.aead nonce).encrypt (padding ++ tv)).2 with hc2
  have t1 : writeRange? (List.replicate 108 (0:Nat)) 0 c1 80
      = some (c1 ++ List.replicate 28 0) := by
    have := writeRange?_eq (List.replicate 108 0) [] (List.replicate 80 0)
      (List.replicate 28 0) c1 0 80 (by simp) (by simp) hct.symm (by simp)
    simpa using this
  have t2 : writeRange? (c1 ++ List.replicate 28 (0:Nat)) 80 nonce 12
      = some (c1 ++ nonce ++ List.replicate 16 0) := by
    have := writeRange?_eq (c1 ++ List.replicate 28 0) c1 (List.replicate 12 0)
      (List.replicate 16 0) nonce 80 12 (by simp) hct.symm h12.symm (by simp)
    simpa using this
  have t3 : writeRange? (c1 ++ nonce ++ List.replicate 16 (0:Nat)) 92 c2 16
      = some (c1 ++ nonce ++ c2) := by
    have := writeRange?_eq (c1 ++ nonce ++ List.replicate 16 0) (c1 ++ nonce)
      (List.replicate 16 0) [] c2 92 16 (by simp) (by simp [hct, h12])
      htag.symm (by simp)
    simpa using this
  simp only [generate_token, Option.pure_def, Option.bind_eq_bind]
  rw [s1, Option.some_bind, s2, Option.some_bind, ← hc1, ← hc2, t1,
    Option.some_bind, t2, Option.some_bind, t3, Option.some_bind]

theorem aes_generate_cookie_eq (p : AesGcmCsrfProtection) (now : Int)
    (nonce padding tv : Bytes) (ttl : Int)
    (h12 : nonce.length = 12) (h16 : padding.length = 16) (h64 : tv.length = 64)
    (hct : ((p.aead nonce).encrypt
      (padding ++ i64ToLeBytes (now + ttl) ++ tv)).1.length = 88)
    (htag : ((p.aead nonce).encrypt
      (padding ++ i64ToLeBytes (now + ttl) ++ tv)).2.length = 16) :
    p.generate_cookie now (some nonce) (some padding) tv ttl =
      some (.ok ⟨((p.aead nonce).encrypt
          (padding ++ i64ToLeBytes (now + ttl) ++ tv)).1 ++ nonce ++
        ((p.aead nonce).encrypt
          (padding ++ i64ToLeBytes (now + ttl) ++ tv)).2⟩) := by
  set exp := i64ToLeBytes (now + ttl) with hexp
  have hexplen : exp.length = 8 := i64ToLeBytes_length _
  have s1 : writeRange? (List.replicate 88 (0:Nat)) 0 padding 16
      = some (padding ++ List.replicate 72 0) := by
    have := writeRange?_eq (List.replicate 88 0) [] (List.replicate 16 0)
      (List.replicate 72 0) padding 0 16 (by simp) (by simp) h16.symm (by simp)
    simpa using this
  have s2 : writeRange? (padding ++ List.replicate 72 (0:Nat)) 16 exp 8
      = some (padding ++ exp ++ List.replicate 64 0) := by
    have := writeRange?_eq (padding ++ List.replicate 72 0) padding
      (List.replicate 8 0) (List.replicate 64 0) exp 16 8 (by simp) h16.symm
      hexplen.symm (by simp)
    simpa using this
  have s3 : writeRange? (padding ++ exp ++ List.replicate 64 (0:Nat)) 24 tv 64
      = some (padding ++ exp ++ tv) := by
    have := writeRange?_eq (padding ++ exp ++ List.replicate 64 0)
      (padding ++ exp) (List.replicate 64 0) [] tv 24 64 (by simp)
      (by simp [h16, hexplen]) h64.symm (by simp)
    simpa using this
  set c1 := ((p.aead nonce).encrypt (padding ++ exp ++ tv)).1 with hc1
  set c2 := ((p.aead nonce).encrypt (padding ++ exp ++ tv)).2 with hc2
  have t1 : writeRange? (List.replicate 116 (0:Nat)) 0 c1 88
      = some (c1 ++ List.replicate 28 0) := by
    have := writeRange?_eq (List.replicate 116 0) [] (List.replicate 88 0)
      (List.replicate 28 0) c1 0 88 (by simp) (by simp) hct.symm (by simp)
    simpa using this
  have t2 : writeRange? (c1 ++ List.replicate 28 (0:Nat)) 88 nonce 12
      = some (c1 ++ nonce ++ List.replicate 16 0) := by
    have := writeRange?_eq (c1 ++ List.replicate 28 0) c1 (List.replicate 12 0)
      (List.replicate 16 0) nonce 88 12 (by simp) hct.symm h12.symm (by simp)
    simpa using this
  have t3 : writeRange? (c1 ++ nonce ++ List.replicate 16 (0:Nat)) 100 c2 16
      = some (c1 ++ nonce ++ c2) := by
    have := writeRange?_eq (c1 ++ nonce ++ List.replicate 16 0) (c1 ++ nonce)
      (List.replicate 16 0) [] c2 100 16 (by simp) (by simp [hct, h12])
      htag.symm (by simp)
    simpa using this
  simp only [generate_cookie, Option.pure_def, Option.bind_eq_bind]
  rw [← hexp, s1, Option.some_bind, s2, Option.some_bind, s3, Option.some_bind,
    ← hc1, ← hc2, t1, Option.some_bind, t2, Option.some_bind, t3,
    Option.some_bind]

theorem aes_parse_token_eq (p : AesGcmCsrfProtection) (ct1 nonce ct2 padding tv : Bytes)
    (hc1 : ct1.length = 80) (h12 : nonce.length = 12) (hc2 : ct2.length = 16)
    (h16 : padding.length = 16) (h64 : tv.length = 64)
    (hdec : (p.aead nonce).decrypt ct1 ct2 = some (padding ++ tv)) :
    p.parse_token (ct1 ++ nonce ++ ct2) = some (.ok ⟨tv⟩) := by
  have r1 : readRange? (ct1 ++ nonce ++ ct2) 0 80 = some ct1 :=
    readRange?_eq _ [] ct1 (nonce ++ ct2) 0 80 (by simp) (by simp) hc1.symm
  have r2 : readRange? (ct1 ++ nonce ++ ct2) 80 12 = some nonce :=
    readRange?_eq _ ct1 nonce ct2 80 12 (by simp) hc1.symm h12.symm
  have r3 : readRange? (ct1 ++ nonce ++ ct2) 92 16 = some ct2 :=
    readRange?_eq _ (ct1 ++ nonce) ct2 [] 92 16 (by simp) (by simp [hc1, h12])
      hc2.symm
  have r4 : readRange? (padding ++ tv) 16 64 = some tv :=
    readRange?_eq _ padding tv [] 16 64 (by simp) h16.symm h64.symm
  simp only [parse_token, Option.pure_def, Option.bind_eq_bind]
  rw [if_neg (by simp [hc1, h12, hc2]), r1, Option.some_bind, r2,
    Option.some_bind, r3, Option.some_bind, hdec]
  dsimp only
  rw [r4, Option.some_bind]

theorem aes_parse_cookie_eq (p : AesGcmCsrfProtection)
    (ct1 nonce ct2 padding exp tv : Bytes)
    (hc1 : ct1.length = 88) (h12 : nonce.length = 12) (hc2 : ct2.length = 16)
    (h16 : padding.length = 16) (hexplen : exp.length = 8) (h64 : tv.length = 64)
    (hdec : (p.aead nonce).decrypt ct1 ct2 = some (padding ++ exp ++ tv)) :
    p.parse_cookie (ct1 ++ nonce ++ ct2) = some (.ok ⟨i64OfLeBytes exp, tv⟩) := by
  have r1 : readRange? (ct1 ++ nonce ++ ct2) 0 88 = some ct1 :=
    readRange?_eq _ [] ct1 (nonce ++ ct2) 0 88 (by simp) (by simp) hc1.symm
  have r2 : readRange? (ct1 ++ nonce ++ ct2) 88 12 = some nonce :=
    readRange?_eq _ ct1 nonce ct2 88 12 (by simp) hc1.symm h12.symm
  have r3 : readRange? (ct1 ++ nonce ++ ct2) 100 16 = some ct2 :=
    readRange?_eq _ (ct1 ++ nonce) ct2 [] 100 16 (by simp) (by simp [hc1, h12])
      hc2.symm
  have r4 : readRange? (padding ++ exp ++ tv) 16 8 = some exp :=
    readRange?_eq _ padding exp tv 16 8 (by simp) h16.symm hexplen.symm
  have r5 : readRange? (padding ++ exp ++ tv) 24 64 = some tv :=
    readRange?_eq _ (padding ++ exp) tv [] 24 64 (by simp)
      (by simp [h16, hexplen]) h64.symm
  simp only [parse_cookie, Option.pure_def, Option.bind_eq_bind]
  rw [if_neg (by simp [hc1, h12, hc2]), r1, Option.some_bind, r2,
    Option.some_bind, r3, Option.some_bind, hdec]
  dsimp only
  rw [r4, Option.some_bind, r5, Option.some_bind]

end AesGcmCsrfProtection

/-! ## Closed forms of the ChaCha20-Poly1305 backend operations -/

namespace ChaCha20Poly1305CsrfProtection

theorem chacha_generate_token_eq (p : ChaCha20Poly1305CsrfProtection)
    (nonce padding tv : Bytes)
    (h8 : nonce.length = 8) (h16 : padding.length = 16) (h64 : tv.length = 64)
    (hct : ((p.aead nonce).encrypt (padding ++ tv)).1.length = 80)
    (htag : ((p.aead nonce).encrypt (padding ++ tv)).2.length = 16) :
    p.generate_token (some nonce) (some padding) tv =
      some (.ok ⟨((p.aead nonce).encrypt (padding ++ tv)).1 ++ nonce ++
        ((p.aead nonce).encrypt (padding ++ tv)).2⟩) := by
  have s1 : writeRange? (List.replicate 80 (0:Nat)) 0 padding 16
      = some (padding ++ List.replicate 64 0) := by
    have := writeRange?_eq (List.replicate 80 0) [] (List.replicate 16 0)
      (List.replicate 64 0) padding 0 16 (by simp) (by simp) h16.symm (by simp)
    simpa using this
  have s2 : writeRange? (padding ++ List.replicate 64 (0:Nat)) 16 tv 64
      = some (padding ++ tv) := by
    have := writeRange?_eq (padding ++ List.replicate 64 0) padding
      (List.replicate 64 0) [] tv 16 64 (by simp) h16.symm h64.symm (by simp)
    simpa using this
  set c1 := ((p.aead nonce).encrypt (padding ++ tv)).1 with hc1
  set c2 := ((p.aead nonce).encrypt (padding ++ tv)).2 with hc2
  have t1 : writeRange? (List.replicate 104 (0:Nat)) 0 c1 80
      = some (c1 ++ List.replicate 24 0) := by
    have := writeRange?_eq (List.replicate 104 0) [] (List.replicate 80 0)
      (List.replicate 24 0) c1 0 80 (by simp) (by simp) hct.symm (by simp)
    simpa using this
  have t2 : writeRange? (c1 ++ List.replicate 24 (0:Nat)) 80 nonce 8
      = some (c1 ++ nonce ++ List.replicate 16 0) := by
    have := writeRange?_eq (c1 ++ List.replicate 24 0) c1 (List.replicate 8 0)
      (List.replicate 16 0) nonce 80 8 (by simp) hct.symm h8.symm (by simp)
    simpa using this
  have t3 : writeRange? (c1 ++ nonce ++ List.replicate 16 (0:Nat)) 88 c2 16
      = some (c1 ++ nonce ++ c2) := by
    have := writeRange?_eq (c1 ++ nonce ++ List.replicate 16 0) (c1 ++ nonce)
      (List.replicate 16 0) [] c2 88 16 (by simp) (by simp [hct, h8])
      htag.symm (by simp)
    simpa using this
  simp only [generate_token, Option.pure_def, Option.bind_eq_bind]
  rw [s1, Option.some_bind, s2, Option.some_bind, ← hc1, ← hc2, t1,
    Option.some_bind, t2, Option.some_bind, t3, Option.some_bind]

theorem chacha_generate_cookie_eq (p : ChaCha20Poly1305CsrfProtection) (now : Int)
    (nonce padding tv : Bytes) (ttl : Int)
    (h8 : nonce.length = 8) (h16 : padding.length = 16) (h64 : tv.length = 64)
    (hct : ((p.aead nonce).encrypt
      (padding ++ i64ToLeBytes (now + ttl) ++ tv)).1.length = 88)
    (htag : ((p.aead nonce).encrypt
      (padding ++ i64ToLeBytes (now + ttl) ++ tv)).2.length = 16) :
    p.generate_cookie now (some nonce) (some padding) tv ttl =
      some (.ok ⟨((p.aead nonce).encrypt
          (padding ++ i64ToLeBytes (now + ttl) ++ tv)).1 ++ nonce ++
        ((p.aead nonce).encrypt
          (padding ++ i64ToLeBytes (now + ttl) ++ tv)).2⟩) := by
  set exp := i64ToLeBytes (now + ttl) with hexp
  have hexplen : exp.length = 8 := i64ToLeBytes_length _
  have s1 : writeRange? (List.replicate 88 (0:Nat)) 0 padding 16
      = some (padding ++ List.replicate 72 0) := by
    have := writeRange?_eq (List.replicate 88 0) [] (List.replicate 16 0)
      (List.replicate 72 0) padding 0 16 (by simp) (by simp) h16.symm (by simp)
    simpa using this
  have s2 : writeRange? (padding ++ List.replicate 72 (0:Nat)) 16 exp 8
      = some (padding ++ exp ++ List.replicate 64 0) := by
    have := writeRange?_eq (padding ++ List.replicate 72 0) padding
      (List.replicate 8 0) (List.replicate 64 0) exp 16 8 (by simp) h16.symm
      hexplen.symm (by simp)
    simpa using this
  have s3 : writeRange? (padding ++ exp ++ List.replicate 64 (0:Nat)) 24 tv 64
      = some (padding ++ exp ++ tv) := by
    have := writeRange?_eq (padding ++ exp ++ List.replicate 64 0)
      (padding ++ exp) (List.replicate 64 0) [] tv 24 64 (by simp)
      (by simp [h16, hexplen]) h64.symm (by simp)
    simpa using this
  set c1 := ((p.aead nonce).encrypt (padding ++ exp ++ tv)).1 with hc1
  set c2 := ((p.aead nonce).encrypt (padding ++ exp ++ tv)).2 with hc2
  have t1 : writeRange? (List.replicate 112 (0:Nat)) 0 c1 88
      = some (c1 ++ List.replicate 24 0) := by
    have := writeRange?_eq (List.replicate 112 0) [] (List.replicate 88 0)
      (List.replicate 24 0) c1 0 88 (by simp) (by simp) hct.symm (by simp)
    simpa using this
  have t2 : writeRange? (c1 ++ List.replicate 24 (0:Nat)) 88 nonce 8
      = some (c1 ++ nonce ++ List.replicate 16 0) := by
    have := writeRange?_eq (c1 ++ List.replicate 24 0) c1 (List.replicate 8 0)
      (List.replicate 16 0) nonce 88 8 (by simp) hct.symm h8.symm (by simp)
    simpa using this
  have t3 : writeRange? (c1 ++ nonce ++ List.replicate 16 (0:Nat)) 96 c2 16
      = some (c1 ++ nonce ++ c2) := by
    have := writeRange?_eq (c1 ++ nonce ++ List.replicate 16 0) (c1 ++ nonce)
      (List.replicate 16 0) [] c2 96 16 (by simp) (by simp [hct, h8])
      htag.symm (by simp)
    simpa using this
  simp only [generate_cookie, Option.pure_def, Option.bind_eq_bind]
  rw [← hexp, s1, Option.some_bind, s2, Option.some_bind, s3, Option.some_bind,
    ← hc1, ← hc2, t1, Option.some_bind, t2, Option.some_bind, t3,
    Option.some_bind]

theorem chacha_parse_token_eq (p : ChaCha20Poly1305CsrfProtection)
    (ct1 nonce ct2 padding tv : Bytes)
    (hc1 : ct1.length = 80) (h8 : nonce.length = 8) (hc2 : ct2.length = 16)
    (h16 : padding.length = 16) (h64 : tv.length = 64)
    (hdec : (p.aead nonce).decrypt ct1 ct2 = some (padding ++ tv)) :
    p.parse_token (ct1 ++ nonce ++ ct2) = some (.ok ⟨tv⟩) := by
  have r1 : readRange? (ct1 ++ nonce ++ ct2) 0 80 = some ct1 :=
    readRange?_eq _ [] ct1 (nonce ++ ct2) 0 80 (by simp) (by simp) hc1.symm
  have r2 : readRange? (ct1 ++ nonce ++ ct2) 80 8 = some nonce :=
    readRange?_eq _ ct1 nonce ct2 80 8 (by simp) hc1.symm h8.symm
  have r3 : readRange? (ct1 ++ nonce ++ ct2) 88 16 = some ct2 :=
    readRange?_eq _ (ct1 ++ nonce) ct2 [] 88 16 (by simp) (by simp [hc1, h8])
      hc2.symm
  have r4 : readRange? (padding ++ tv) 16 64 = some tv :=
    readRange?_eq _ padding tv [] 16 64 (by simp) h16.symm h64.symm
  simp only [parse_token, Option.pure_def, Option.bind_eq_bind]
  rw [if_neg (by simp [hc1, h8, hc2]), r1, Option.some_bind, r2,
    Option.some_bind, r3, Option.some_bind, hdec]
  dsimp only
  rw [r4, Option.some_bind]

theorem chacha_parse_cookie_eq (p : ChaCha20Poly1305CsrfProtection)
    (ct1 nonce ct2 padding exp tv : Bytes)
    (hc1 : ct1.length = 88) (h8 : nonce.length = 8) (hc2 : ct2.length = 16)
    (h16 : padding.length = 16) (hexplen : exp.length = 8) (h64 : tv.length = 64)
    (hdec : (p.aead nonce).decrypt ct1 ct2 = some (padding ++ exp ++ tv)) :
    p.parse_cookie (ct1 ++ nonce ++ ct2) = some (.ok ⟨i64OfLeBytes exp, tv⟩) := by
  have r1 : readRange? (ct1 ++ nonce ++ ct2) 0 88 = some ct1 :=
    readRange?_eq _ [] ct1 (nonce ++ ct2) 0 88 (by simp) (by simp) hc1.symm
  have r2 : readRange? (ct1 ++ nonce ++ ct2) 88 8 = some nonce :=
    readRange?_eq _ ct1 nonce ct2 88 8 (by simp) hc1.symm h8.symm
  have r3 : readRange? (ct1 ++ nonce ++ ct2) 96 16 = some ct2 :=
    readRange?_eq _ (ct1 ++ nonce) ct2 [] 96 16 (by simp) (by simp [hc1, h8])
      hc2.symm
  have r4 : readRange? (padding ++ exp ++ tv) 16 8 = some exp :=
    readRange?_eq _ padding exp tv 16 8 (by simp) h16.symm hexplen.symm
  have r5 : readRange? (padding ++ exp ++ tv) 24 64 = some tv :=
    readRange?_eq _ (padding ++ exp) tv [] 24 64 (by simp)
      (by simp [h16, hexplen]) h64.symm
  simp only [parse_cookie, Option.pure_def, Option.bind_eq_bind]
  rw [if_neg (by simp [hc1, h8, hc2]), r1, Option.some_bind, r2,
    Option.some_bind, r3, Option.some_bind, hdec]
  dsimp only
  rw [r4, Option.some_bind, r5, Option.some_bind]

end ChaCha20Poly1305CsrfProtection

/-! ## Concrete instantiations of the abstract primitives

Used to evaluate the theorems at concrete inputs.  `zeroMac` is a constant
32-byte MAC; `idPrim` is an identity "cipher" with a constant 16-byte tag.
Both satisfy the length contracts of the real library primitives. -/

def zeroMac : HmacCsrfProtection := ⟨fun _ => List.replicate 32 0⟩

def idPrim : AeadPrim :=
  ⟨fun pt => (pt, List.replicate 16 7),
   fun ct tag => if tag = List.replicate 16 7 then some ct else none⟩

def idAes : AesGcmCsrfProtection := ⟨fun _ => idPrim⟩

def idChaCha : ChaCha20Poly1305CsrfProtection := ⟨fun _ => idPrim⟩

/-! ## Claims -/

/-- C1: for every backend, `verify_token_pair token cookie` returns true if
and only if the token's secret is byte-equal to the cookie's secret and the
cookie's `expires` field is strictly greater than the current time.  The
function (the trait's shared default method) is a pure function of the two
decoded values and the clock: it takes no backend state, reads no key
material and performs no cryptography. -/
theorem verify_token_pair_iff_secrets_match_and_not_expired
    (now : Int) (token : UnencryptedCsrfToken) (cookie : UnencryptedCsrfCookie) :
    verify_token_pair now token cookie = true ↔
      token.token = cookie.token ∧ cookie.expires > now := by
  simp [verify_token_pair]

/-- C4: for every backend, `parse_token` / `parse_cookie` on input whose
length differs from the backend's fixed wire length (96/104 for HMAC,
108/116 for AES-GCM, 104/112 for ChaCha20-Poly1305) returns
`Err(ValidationFailure)`.  The result holds for every backend value `p`,
i.e. it is independent of the MAC/AEAD primitives, which is the shallow
embedding of "the rejection happens before any cryptographic computation":
the early return fires before the MAC or AEAD is consulted. -/
theorem wrong_length_rejected_without_crypto :
    (∀ (p : HmacCsrfProtection) (b : Bytes), b.length ≠ 96 →
      p.parse_token b = some (.error .ValidationFailure)) ∧
    (∀ (p : HmacCsrfProtection) (b : Bytes), b.length ≠ 104 →
      p.parse_cookie b = some (.error .ValidationFailure)) ∧
    (∀ (p : AesGcmCsrfProtection) (b : Bytes), b.length ≠ 108 →
      p.parse_token b = some (.error .ValidationFailure)) ∧
    (∀ (p : AesGcmCsrfProtection) (b : Bytes), b.length ≠ 116 →
      p.parse_cookie b = some (.error .ValidationFailure)) ∧
    (∀ (p : ChaCha20Poly1305CsrfProtection) (b : Bytes), b.length ≠ 104 →
      p.parse_token b = some (.error .ValidationFailure)) ∧
    (∀ (p : ChaCha20Poly1305CsrfProtection) (b : Bytes), b.length ≠ 112 →
      p.parse_cookie b = some (.error .ValidationFailure)) := by
  refine ⟨fun p b h => ?_, fun p b h => ?_, fun p b h => ?_, fun p b h => ?_,
    fun p b h => ?_, fun p b h => ?_⟩
  · simp [HmacCsrfProtection.parse_token, h]
  · simp [HmacCsrfProtection.parse_cookie, h]
  · simp [AesGcmCsrfProtection.parse_token, h]
  · simp [AesGcmCsrfProtection.parse_cookie, h]
  · simp [ChaCha20Poly1305CsrfProtection.parse_token, h]
  · simp [ChaCha20Poly1305CsrfProtection.parse_cookie, h]

/-- Witness for C4 at the empty input for all three backends. -/
theorem wrong_length_rejected_without_crypto_witness :
    (([] : Bytes).length ≠ 96 ∧
      zeroMac.parse_token [] = some (.error .ValidationFailure)) ∧
    (([] : Bytes).length ≠ 104 ∧
      zeroMac.parse_cookie [] = some (.error .ValidationFailure)) ∧
    (([] : Bytes).length ≠ 108 ∧
      idAes.parse_token [] = some (.error .ValidationFailure)) ∧
    (([] : Bytes).length ≠ 116 ∧
      idAes.parse_cookie [] = some (.error .ValidationFailure)) ∧
    (([] : Bytes).length ≠ 104 ∧
      idChaCha.parse_token [] = some (.error .ValidationFailure)) ∧
    (([] : Bytes).length ≠ 112 ∧
      idChaCha.parse_cookie [] = some (.error .ValidationFailure)) :=
  ⟨⟨by decide, wrong_length_rejected_without_crypto.1 zeroMac [] (by decide)⟩,
   ⟨by decide, wrong_length_rejected_without_crypto.2.1 zeroMac [] (by decide)⟩,
   ⟨by decide, wrong_length_rejected_without_crypto.2.2.1 idAes [] (by decide)⟩,
   ⟨by decide, wrong_length_rejected_without_crypto.2.2.2.1 idAes [] (by decide)⟩,
   ⟨by decide, wrong_length_rejected_without_crypto.2.2.2.2.1 idChaCha []
      (by decide)⟩,
   ⟨by decide, wrong_length_rejected_without_crypto.2.2.2.2.2 idChaCha []
      (by decide)⟩⟩

/-- C10: the HMAC backend's `generate_token` and `generate_cookie` return
`Ok` for every 64-byte secret and every ttl (positive or negative): they
consume no randomness (their definitions take no random draws, unlike the
AEAD backends') and have no error path, so they can never return
`InternalError`.  The hypotheses are the Rust type invariant
(`token_value : [u8; 64]`) and the HMAC-SHA-256 library contract (32-byte
output). -/
theorem hmac_generate_never_fails
    (p : HmacCsrfProtection) (now : Int) (s : Bytes) (ttl : Int)
    (h64 : s.length = 64) (h32 : ∀ m, (p.hmacSha256 m).length = 32) :
    (∃ t, p.generate_token s = some (.ok t)) ∧
    (∃ c, p.generate_cookie now s ttl = some (.ok c)) :=
  ⟨⟨_, HmacCsrfProtection.hmac_generate_token_eq p s h64 (h32 _)⟩,
   ⟨_, HmacCsrfProtection.hmac_generate_cookie_eq p now s ttl h64 (h32 _)⟩⟩

/-- Witness for C10 with the constant MAC, a concrete secret and a negative
ttl. -/
theorem hmac_generate_never_fails_witness :
    (List.replicate 64 1 : Bytes).length = 64 ∧
    (∀ m, (zeroMac.hmacSha256 m).length = 32) ∧
    (∃ t, zeroMac.generate_token (List.replicate 64 1) = some (.ok t)) ∧
    (∃ c, zeroMac.generate_cookie 1000 (List.replicate 64 1) (-1) =
      some (.ok c)) :=
  ⟨by simp, fun m => by simp [zeroMac],
   (hmac_generate_never_fails zeroMac 1000 (List.replicate 64 1) (-1)
      (by simp) (fun m => by simp [zeroMac])).1,
   (hmac_generate_never_fails zeroMac 1000 (List.replicate 64 1) (-1)
      (by simp) (fun m => by simp [zeroMac])).2⟩

/-- C2: for every backend and every 64-byte secret, if `generate_token`
returns `Ok t` then `parse_token` on `t`'s bytes returns `Ok` of an
`UnencryptedCsrfToken` whose value equals the secret exactly.  For the AEAD
backends the randomness of the generating call (nonce, padding) is
quantified, lengths fixed by the buffers the code fills, and the library
contracts (ciphertext length = plaintext length, 16-byte tag, decryption
inverts encryption under the same nonce) are hypotheses. -/
theorem token_roundtrip_all_backends :
    (∀ (p : HmacCsrfProtection) (secret : Bytes) (t : CsrfToken),
      secret.length = 64 →
      (∀ m, (p.hmacSha256 m).length = 32) →
      p.generate_token secret = some (.ok t) →
      p.parse_token t.bytes = some (.ok ⟨secret⟩)) ∧
    (∀ (p : AesGcmCsrfProtection) (nonce padding secret : Bytes) (t : CsrfToken),
      nonce.length = 12 → padding.length = 16 → secret.length = 64 →
      (∀ n pt, ((p.aead n).encrypt pt).1.length = pt.length) →
      (∀ n pt, ((p.aead n).encrypt pt).2.length = 16) →
      (∀ n pt, (p.aead n).decrypt ((p.aead n).encrypt pt).1
        ((p.aead n).encrypt pt).2 = some pt) →
      p.generate_token (some nonce) (some padding) secret = some (.ok t) →
      p.parse_token t.bytes = some (.ok ⟨secret⟩)) ∧
    (∀ (p : ChaCha20Poly1305CsrfProtection) (nonce padding secret : Bytes)
      (t : CsrfToken),
      nonce.length = 8 → padding.length = 16 → secret.length = 64 →
      (∀ n pt, ((p.aead n).encrypt pt).1.length = pt.length) →
      (∀ n pt, ((p.aead n).encrypt pt).2.length = 16) →
      (∀ n pt, (p.aead n).decrypt ((p.aead n).encrypt pt).1
        ((p.aead n).encrypt pt).2 = some pt) →
      p.generate_token (some nonce) (some padding) secret = some (.ok t) →
      p.parse_token t.bytes = some (.ok ⟨secret⟩)) := by
  refine ⟨fun p secret t h64 h32 hgt => ?_,
    fun p nonce padding secret t h12 h16 h64 henc htag hdec hgt => ?_,
    fun p nonce padding secret t h8 h16 h64 henc htag hdec hgt => ?_⟩
  · rw [HmacCsrfProtection.hmac_generate_token_eq p secret h64 (h32 _)] at hgt
    simp only [Option.some.injEq, Except.ok.injEq] at hgt
    cases hgt
    exact HmacCsrfProtection.hmac_parse_token_roundtrip p secret h64 (h32 _)
  · have hct : ((p.aead nonce).encrypt (padding ++ secret)).1.length = 80 := by
      rw [henc]; simp [h16, h64]
    rw [AesGcmCsrfProtection.aes_generate_token_eq p nonce padding secret h12 h16
      h64 hct (htag _ _)] at hgt
    simp only [Option.some.injEq, Except.ok.injEq] at hgt
    cases hgt
    exact AesGcmCsrfProtection.aes_parse_token_eq p _ nonce _ padding secret hct
      h12 (htag _ _) h16 h64 (hdec _ _)
  · have hct : ((p.aead nonce).encrypt (padding ++ secret)).1.length = 80 := by
      rw [henc]; simp [h16, h64]
    rw [ChaCha20Poly1305CsrfProtection.chacha_generate_token_eq p nonce padding secret
      h8 h16 h64 hct (htag _ _)] at hgt
    simp only [Option.some.injEq, Except.ok.injEq] at hgt
    cases hgt
    exact ChaCha20Poly1305CsrfProtection.chacha_parse_token_eq p _ nonce _ padding
      secret hct h8 (htag _ _) h16 h64 (hdec _ _)

/-- Witness for C2: concrete secret, nonces and padding under the constant
MAC and the identity AEAD. -/
theorem token_roundtrip_all_backends_witness :
    zeroMac.parse_token
      (CsrfToken.mk (List.replicate 64 1 ++ List.replicate 32 0)).bytes =
      some (.ok ⟨List.replicate 64 1⟩) ∧
    idAes.parse_token
      (CsrfToken.mk ((List.replicate 16 2 ++ List.replicate 64 1) ++
        List.replicate 12 3 ++ List.replicate 16 7)).bytes =
      some (.ok ⟨List.replicate 64 1⟩) ∧
    idChaCha.parse_token
      (CsrfToken.mk ((List.replicate 16 2 ++ List.replicate 64 1) ++
        List.replicate 8 3 ++ List.replicate 16 7)).bytes =
      some (.ok ⟨List.replicate 64 1⟩) :=
  ⟨token_roundtrip_all_backends.1 zeroMac (List.replicate 64 1) _
      (by simp) (fun m => by simp [zeroMac]) (by decide),
   token_roundtrip_all_backends.2.1 idAes (List.replicate 12 3)
      (List.replicate 16 2) (List.replicate 64 1) _
      (by simp) (by simp) (by simp)
      (fun n pt => by simp [idAes, idPrim])
      (fun n pt => by simp [idAes, idPrim])
      (fun n pt => by simp [idAes, idPrim]) (by decide),
   token_roundtrip_all_backends.2.2 idChaCha (List.replicate 8 3)
      (List.replicate 16 2) (List.replicate 64 1) _
      (by simp) (by simp) (by simp)
      (fun n pt => by simp [idChaCha, idPrim])
      (fun n pt => by simp [idChaCha, idPrim])
      (fun n pt => by simp [idChaCha, idPrim]) (by decide)⟩

/-- C3: for every backend, every 64-byte secret and every ttl (negative
included), if `generate_cookie` returns `Ok c` then `parse_cookie` on `c`'s
bytes returns `Ok` of an `UnencryptedCsrfCookie` whose secret is the input
secret and whose `expires` is `now + ttl` (hypotheses bound `now + ttl` to
the representable `i64` range).  Nothing ties decoding to the clock, so an
already-expired cookie (negative ttl) still decodes: freshness is checked
only by `verify_token_pair`. -/
theorem cookie_roundtrip_all_backends :
    (∀ (p : HmacCsrfProtection) (now : Int) (s : Bytes) (ttl : Int)
      (c : CsrfCookie),
      s.length = 64 →
      (∀ m, (p.hmacSha256 m).length = 32) →
      -(2:Int)^63 ≤ now + ttl → now + ttl < 2^63 →
      p.generate_cookie now s ttl = some (.ok c) →
      p.parse_cookie c.bytes = some (.ok ⟨now + ttl, s⟩)) ∧
    (∀ (p : AesGcmCsrfProtection) (now : Int) (nonce padding s : Bytes)
      (ttl : Int) (c : CsrfCookie),
      nonce.length = 12 → padding.length = 16 → s.length = 64 →
      (∀ n pt, ((p.aead n).encrypt pt).1.length = pt.length) →
      (∀ n pt, ((p.aead n).encrypt pt).2.length = 16) →
      (∀ n pt, (p.aead n).decrypt ((p.aead n).encrypt pt).1
        ((p.aead n).encrypt pt).2 = some pt) →
      -(2:Int)^63 ≤ now + ttl → now + ttl < 2^63 →
      p.generate_cookie now (some nonce) (some padding) s ttl = some (.ok c) →
      p.parse_cookie c.bytes = some (.ok ⟨now + ttl, s⟩)) ∧
    (∀ (p : ChaCha20Poly1305CsrfProtection) (now : Int)
      (nonce padding s : Bytes) (ttl : Int) (c : CsrfCookie),
      nonce.length = 8 → padding.length = 16 → s.length = 64 →
      (∀ n pt, ((p.aead n).encrypt pt).1.length = pt.length) →
      (∀ n pt, ((p.aead n).encrypt pt).2.length = 16) →
      (∀ n pt, (p.aead n).decrypt ((p.aead n).encrypt pt).1
        ((p.aead n).encrypt pt).2 = some pt) →
      -(2:Int)^63 ≤ now + ttl → now + ttl < 2^63 →
      p.generate_cookie now (some nonce) (some padding) s ttl = some (.ok c) →
      p.parse_cookie c.bytes = some (.ok ⟨now + ttl, s⟩)) := by
  refine ⟨fun p now s ttl c h64 h32 hlo hhi hgc => ?_,
    fun p now nonce padding s ttl c h12 h16 h64 henc htag hdec hlo hhi hgc => ?_,
    fun p now nonce padding s ttl c h8 h16 h64 henc htag hdec hlo hhi hgc => ?_⟩
  · rw [HmacCsrfProtection.hmac_generate_cookie_eq p now s ttl h64 (h32 _)] at hgc
    simp only [Option.some.injEq, Except.ok.injEq] at hgc
    cases hgc
    have := HmacCsrfProtection.hmac_parse_cookie_roundtrip p s
      (i64ToLeBytes (now + ttl)) h64 (i64ToLeBytes_length _) (h32 _)
    rwa [i64_le_roundtrip _ hlo hhi] at this
  · have hct : ((p.aead nonce).encrypt
        (padding ++ i64ToLeBytes (now + ttl) ++ s)).1.length = 88 := by
      rw [henc]; simp [h16, h64, i64ToLeBytes_length]
    rw [AesGcmCsrfProtection.aes_generate_cookie_eq p now nonce padding s ttl h12
      h16 h64 hct (htag _ _)] at hgc
    simp only [Option.some.injEq, Except.ok.injEq] at hgc
    cases hgc
    have := AesGcmCsrfProtection.aes_parse_cookie_eq p _ nonce _ padding
      (i64ToLeBytes (now + ttl)) s hct h12 (htag _ _) h16
      (i64ToLeBytes_length _) h64 (hdec _ _)
    rwa [i64_le_roundtrip _ hlo hhi] at this
  · have hct : ((p.aead nonce).encrypt
        (padding ++ i64ToLeBytes (now + ttl) ++ s)).1.length = 88 := by
      rw [henc]; simp [h16, h64, i64ToLeBytes_length]
    rw [ChaCha20Poly1305CsrfProtection.chacha_generate_cookie_eq p now nonce padding s
      ttl h8 h16 h64 hct (htag _ _)] at hgc
    simp only [Option.some.injEq, Except.ok.injEq] at hgc
    cases hgc
    have := ChaCha20Poly1305CsrfProtection.chacha_parse_cookie_eq p _ nonce _ padding
      (i64ToLeBytes (now + ttl)) s hct h8 (htag _ _) h16
      (i64ToLeBytes_length _) h64 (hdec _ _)
    rwa [i64_le_roundtrip _ hlo hhi] at this

set_option maxRecDepth 20000 in
/-- Witness for C3 with a negative ttl (`now = 1000`, `ttl = -1`, so the
cookie is already expired when issued and still decodes). -/
theorem cookie_roundtrip_all_backends_witness :
    zeroMac.parse_cookie
      (CsrfCookie.mk (List.replicate 64 1 ++ i64ToLeBytes 999 ++
        List.replicate 32 0)).bytes =
      some (.ok ⟨999, List.replicate 64 1⟩) ∧
    idAes.parse_cookie
      (CsrfCookie.mk ((List.replicate 16 2 ++ i64ToLeBytes 999 ++
        List.replicate 64 1) ++ List.replicate 12 3 ++
        List.replicate 16 7)).bytes =
      some (.ok ⟨999, List.replicate 64 1⟩) ∧
    idChaCha.parse_cookie
      (CsrfCookie.mk ((List.replicate 16 2 ++ i64ToLeBytes 999 ++
        List.replicate 64 1) ++ List.replicate 8 3 ++
        List.replicate 16 7)).bytes =
      some (.ok ⟨999, List.replicate 64 1⟩) := by
  refine ⟨?_, ?_, ?_⟩
  · have h := cookie_roundtrip_all_backends.1 zeroMac 1000 (List.replicate 64 1)
      (-1) (CsrfCookie.mk (List.replicate 64 1 ++ i64ToLeBytes 999 ++
        List.replicate 32 0))
      (by simp) (fun m => by simp [zeroMac]) (by norm_num) (by norm_num)
      (by decide)
    norm_num at h
    exact h
  · have h := cookie_roundtrip_all_backends.2.1 idAes 1000 (List.replicate 12 3)
      (List.replicate 16 2) (List.replicate 64 1) (-1)
      (CsrfCookie.mk ((List.replicate 16 2 ++ i64ToLeBytes 999 ++
        List.replicate 64 1) ++ List.replicate 12 3 ++ List.replicate 16 7))
      (by simp) (by simp) (by simp)
      (fun n pt => by simp [idAes, idPrim])
      (fun n pt => by simp [idAes, idPrim])
      (fun n pt => by simp [idAes, idPrim])
      (by norm_num) (by norm_num) (by decide)
    norm_num at h
    exact h
  · have h := cookie_roundtrip_all_backends.2.2 idChaCha 1000
      (List.replicate 8 3) (List.replicate 16 2) (List.replicate 64 1) (-1)
      (CsrfCookie.mk ((List.replicate 16 2 ++ i64ToLeBytes 999 ++
        List.replicate 64 1) ++ List.replicate 8 3 ++ List.replicate 16 7))
      (by simp) (by simp) (by simp)
      (fun n pt => by simp [idChaCha, idPrim])
      (fun n pt => by simp [idChaCha, idPrim])
      (fun n pt => by simp [idChaCha, idPrim])
      (by norm_num) (by norm_num) (by decide)
    norm_num at h
    exact h

/-- C5: (length/layout invariance) for every backend, every key (the
quantified primitive functions), every 64-byte secret, every ttl, every
clock value and every random draw, the encoded lengths are the backend's
constants — HMAC 96/104, AES-256-GCM 108/116, ChaCha20-Poly1305 104/112 —
and the bytes are exactly the spec's field layout: HMAC
`secret ‖ expires_le ‖ mac`, AEAD `ciphertext ‖ nonce ‖ tag` with the
ciphertext computed over `padding ‖ [expires_le ‖] secret`. -/
theorem wire_lengths_and_layout_constant :
    (∀ (p : HmacCsrfProtection) (s : Bytes) (t : CsrfToken),
      s.length = 64 → (∀ m, (p.hmacSha256 m).length = 32) →
      p.generate_token s = some (.ok t) →
      t.bytes.length = 96 ∧ t.bytes = s ++ p.hmacSha256 s) ∧
    (∀ (p : HmacCsrfProtection) (now : Int) (s : Bytes) (ttl : Int)
      (c : CsrfCookie),
      s.length = 64 → (∀ m, (p.hmacSha256 m).length = 32) →
      p.generate_cookie now s ttl = some (.ok c) →
      c.bytes.length = 104 ∧
      c.bytes = s ++ i64ToLeBytes (now + ttl) ++
        p.hmacSha256 (s ++ i64ToLeBytes (now + ttl))) ∧
    (∀ (p : AesGcmCsrfProtection) (nonce padding s : Bytes) (t : CsrfToken),
      nonce.length = 12 → padding.length = 16 → s.length = 64 →
      (∀ n pt, ((p.aead n).encrypt pt).1.length = pt.length) →
      (∀ n pt, ((p.aead n).encrypt pt).2.length = 16) →
      p.generate_token (some nonce) (some padding) s = some (.ok t) →
      t.bytes.length = 108 ∧
      t.bytes = ((p.aead nonce).encrypt (padding ++ s)).1 ++ nonce ++
        ((p.aead nonce).encrypt (padding ++ s)).2) ∧
    (∀ (p : AesGcmCsrfProtection) (now : Int) (nonce padding s : Bytes)
      (ttl : Int) (c : CsrfCookie),
      nonce.length = 12 → padding.length = 16 → s.length = 64 →
      (∀ n pt, ((p.aead n).encrypt pt).1.length = pt.length) →
      (∀ n pt, ((p.aead n).encrypt pt).2.length = 16) →
      p.generate_cookie now (some nonce) (some padding) s ttl = some (.ok c) →
      c.bytes.length = 116 ∧
      c.bytes = ((p.aead nonce).encrypt
          (padding ++ i64ToLeBytes (now + ttl) ++ s)).1 ++ nonce ++
        ((p.aead nonce).encrypt (padding ++ i64ToLeBytes (now + ttl) ++ s)).2) ∧
    (∀ (p : ChaCha20Poly1305CsrfProtection) (nonce padding s : Bytes)
      (t : CsrfToken),
      nonce.length = 8 → padding.length = 16 → s.length = 64 →
      (∀ n pt, ((p.aead n).encrypt pt).1.length = pt.length) →
      (∀ n pt, ((p.aead n).encrypt pt).2.length = 16) →
      p.generate_token (some nonce) (some padding) s = some (.ok t) →
      t.bytes.length = 104 ∧
      t.bytes = ((p.aead nonce).encrypt (padding ++ s)).1 ++ nonce ++
        ((p.aead nonce).encrypt (padding ++ s)).2) ∧
    (∀ (p : ChaCha20Poly1305CsrfProtection) (now : Int)
      (nonce padding s : Bytes) (ttl : Int) (c : CsrfCookie),
      nonce.length = 8 → padding.length = 16 → s.length = 64 →
      (∀ n pt, ((p.aead n).encrypt pt).1.length = pt.length) →
      (∀ n pt, ((p.aead n).encrypt pt).2.length = 16) →
      p.generate_cookie now (some nonce) (some padding) s ttl = some (.ok c) →
      c.bytes.length = 112 ∧
      c.bytes = ((p.aead nonce).encrypt
          (padding ++ i64ToLeBytes (now + ttl) ++ s)).1 ++ nonce ++
        ((p.aead nonce).encrypt (padding ++ i64ToLeBytes (now + ttl) ++ s)).2) := by
  refine ⟨fun p s t h64 h32 hg => ?_,
    fun p now s ttl c h64 h32 hg => ?_,
    fun p nonce padding s t h12 h16 h64 henc htag hg => ?_,
    fun p now nonce padding s ttl c h12 h16 h64 henc htag hg => ?_,
    fun p nonce padding s t h8 h16 h64 henc htag hg => ?_,
    fun p now nonce padding s ttl c h8 h16 h64 henc htag hg => ?_⟩
  · rw [HmacCsrfProtection.hmac_generate_token_eq p s h64 (h32 _)] at hg
    simp only [Option.some.injEq, Except.ok.injEq] at hg
    cases hg
    exact ⟨by simp [h64, h32], rfl⟩
  · rw [HmacCsrfProtection.hmac_generate_cookie_eq p now s ttl h64 (h32 _)] at hg
    simp only [Option.some.injEq, Except.ok.injEq] at hg
    cases hg
    exact ⟨by simp [h64, h32, i64ToLeBytes_length], rfl⟩
  · have hct : ((p.aead nonce).encrypt (padding ++ s)).1.length = 80 := by
      rw [henc]; simp [h16, h64]
    rw [AesGcmCsrfProtection.aes_generate_token_eq p nonce padding s h12 h16 h64
      hct (htag _ _)] at hg
    simp only [Option.some.injEq, Except.ok.injEq] at hg
    cases hg
    exact ⟨by simp [hct, h12, htag _ _], rfl⟩
  · have hct : ((p.aead nonce).encrypt
        (padding ++ i64ToLeBytes (now + ttl) ++ s)).1.length = 88 := by
      rw [henc]; simp [h16, h64, i64ToLeBytes_length]
    rw [AesGcmCsrfProtection.aes_generate_cookie_eq p now nonce padding s ttl h12
      h16 h64 hct (htag _ _)] at hg
    simp only [Option.some.injEq, Except.ok.injEq] at hg
    cases hg
    exact ⟨by simp only [List.length_append, hct, h12, htag _ _], rfl⟩
  · have hct : ((p.aead nonce).encrypt (padding ++ s)).1.length = 80 := by
      rw [henc]; simp [h16, h64]
    rw [ChaCha20Poly1305CsrfProtection.chacha_generate_token_eq p nonce padding s h8
      h16 h64 hct (htag _ _)] at hg
    simp only [Option.some.injEq, Except.ok.injEq] at hg
    cases hg
    exact ⟨by simp [hct, h8, htag _ _], rfl⟩
  · have hct : ((p.aead nonce).encrypt
        (padding ++ i64ToLeBytes (now + ttl) ++ s)).1.length = 88 := by
      rw [henc]; simp [h16, h64, i64ToLeBytes_length]
    rw [ChaCha20Poly1305CsrfProtection.chacha_generate_cookie_eq p now nonce padding s
      ttl h8 h16 h64 hct (htag _ _)] at hg
    simp only [Option.some.injEq, Except.ok.injEq] at hg
    cases hg
    exact ⟨by simp only [List.length_append, hct, h8, htag _ _], rfl⟩

set_option maxRecDepth 20000 in
/-- Witness for C5 at concrete keys, secret, draws, `now = 999`, `ttl = 0`. -/
theorem wire_lengths_and_layout_constant_witness :
    ((CsrfToken.mk (List.replicate 64 1 ++ List.replicate 32 0)).bytes.length
        = 96 ∧
      (CsrfToken.mk (List.replicate 64 1 ++ List.replicate 32 0)).bytes =
        List.replicate 64 1 ++ zeroMac.hmacSha256 (List.replicate 64 1)) ∧
    ((CsrfCookie.mk (List.replicate 64 1 ++ i64ToLeBytes (999 + 0) ++
        List.replicate 32 0)).bytes.length = 104 ∧
      (CsrfCookie.mk (List.replicate 64 1 ++ i64ToLeBytes (999 + 0) ++
        List.replicate 32 0)).bytes =
        List.replicate 64 1 ++ i64ToLeBytes (999 + 0) ++
          zeroMac.hmacSha256 (List.replicate 64 1 ++ i64ToLeBytes (999 + 0))) ∧
    ((CsrfToken.mk ((List.replicate 16 2 ++ List.replicate 64 1) ++
        List.replicate 12 3 ++ List.replicate 16 7)).bytes.length = 108 ∧
      (CsrfToken.mk ((List.replicate 16 2 ++ List.replicate 64 1) ++
        List.replicate 12 3 ++ List.replicate 16 7)).bytes =
        ((idAes.aead (List.replicate 12 3)).encrypt
          (List.replicate 16 2 ++ List.replicate 64 1)).1 ++
          List.replicate 12 3 ++
          ((idAes.aead (List.replicate 12 3)).encrypt
            (List.replicate 16 2 ++ List.replicate 64 1)).2) ∧
    ((CsrfCookie.mk ((List.replicate 16 2 ++ i64ToLeBytes (999 + 0) ++
        List.replicate 64 1) ++ List.replicate 12 3 ++
        List.replicate 16 7)).bytes.length = 116 ∧
      (CsrfCookie.mk ((List.replicate 16 2 ++ i64ToLeBytes (999 + 0) ++
        List.replicate 64 1) ++ List.replicate 12 3 ++
        List.replicate 16 7)).bytes =
        ((idAes.aead (List.replicate 12 3)).encrypt
          (List.replicate 16 2 ++ i64ToLeBytes (999 + 0) ++
            List.replicate 64 1)).1 ++ List.replicate 12 3 ++
          ((idAes.aead (List.replicate 12 3)).encrypt
            (List.replicate 16 2 ++ i64ToLeBytes (999 + 0) ++
              List.replicate 64 1)).2) ∧
    ((CsrfToken.mk ((List.replicate 16 2 ++ List.replicate 64 1) ++
        List.replicate 8 3 ++ List.replicate 16 7)).bytes.length = 104 ∧
      (CsrfToken.mk ((List.replicate 16 2 ++ List.replicate 64 1) ++
        List.replicate 8 3 ++ List.replicate 16 7)).bytes =
        ((idChaCha.aead (List.replicate 8 3)).encrypt
          (List.replicate 16 2 ++ List.replicate 64 1)).1 ++
          List.replicate 8 3 ++
          ((idChaCha.aead (List.replicate 8 3)).encrypt
            (List.replicate 16 2 ++ List.replicate 64 1)).2) ∧
    ((CsrfCookie.mk ((List.replicate 16 2 ++ i64ToLeBytes (999 + 0) ++
        List.replicate 64 1) ++ List.replicate 8 3 ++
        List.replicate 16 7)).bytes.length = 112 ∧
      (CsrfCookie.mk ((List.replicate 16 2 ++ i64ToLeBytes (999 + 0) ++
        List.replicate 64 1) ++ List.replicate 8 3 ++
        List.replicate 16 7)).bytes =
        ((idChaCha.aead (List.replicate 8 3)).encrypt
          (List.replicate 16 2 ++ i64ToLeBytes (999 + 0) ++
            List.replicate 64 1)).1 ++ List.replicate 8 3 ++
          ((idChaCha.aead (List.replicate 8 3)).encrypt
            (List.replicate 16 2 ++ i64ToLeBytes (999 + 0) ++
              List.replicate 64 1)).2) :=
  ⟨wire_lengths_and_layout_constant.1 zeroMac (List.replicate 64 1) _
      (by simp) (fun m => by simp [zeroMac]) (by decide),
   wire_lengths_and_layout_constant.2.1 zeroMac 999 (List.replicate 64 1) 0 _
      (by simp) (fun m => by simp [zeroMac]) (by decide),
   wire_lengths_and_layout_constant.2.2.1 idAes (List.replicate 12 3)
      (List.replicate 16 2) (List.replicate 64 1) _
      (by simp) (by simp) (by simp)
      (fun n pt => by simp [idAes, idPrim])
      (fun n pt => by simp [idAes, idPrim]) (by decide),
   wire_lengths_and_layout_constant.2.2.2.1 idAes 999 (List.replicate 12 3)
      (List.replicate 16 2) (List.replicate 64 1) 0 _
      (by simp) (by simp) (by simp)
      (fun n pt => by simp [idAes, idPrim])
      (fun n pt => by simp [idAes, idPrim]) (by decide),
   wire_lengths_and_layout_constant.2.2.2.2.1 idChaCha (List.replicate 8 3)
      (List.replicate 16 2) (List.replicate 64 1) _
      (by simp) (by simp) (by simp)
      (fun n pt => by simp [idChaCha, idPrim])
      (fun n pt => by simp [idChaCha, idPrim]) (by decide),
   wire_lengths_and_layout_constant.2.2.2.2.2 idChaCha 999 (List.replicate 8 3)
      (List.replicate 16 2) (List.replicate 64 1) 0 _
      (by simp) (by simp) (by simp)
      (fun n pt => by simp [idChaCha, idPrim])
      (fun n pt => by simp [idChaCha, idPrim]) (by decide)⟩

/-! ## Helper lemmas about `pair_from_secret` -/

theorem pair_from_secret_ok_inv
    (gt : Bytes → Option (Except CsrfError CsrfToken))
    (gc : Bytes → Int → Option (Except CsrfError CsrfCookie))
    (s : Bytes) (ttl : Int) (t : CsrfToken) (c : CsrfCookie)
    (h : pair_from_secret gt gc s ttl = some (.ok (t, c))) :
    gt s = some (.ok t) ∧ gc s ttl = some (.ok c) := by
  simp only [pair_from_secret, Option.pure_def, Option.bind_eq_bind] at h
  cases hgt : gt s with
  | none => rw [hgt] at h; simp at h
  | some rt =>
    rw [hgt, Option.some_bind] at h
    cases hgc : gc s ttl with
    | none => rw [hgc] at h; simp at h
    | some rc =>
      rw [hgc, Option.some_bind] at h
      cases rt with
      | error e => cases rc <;> simp_all
      | ok t0 =>
        cases rc with
        | error e => simp_all
        | ok c0 => simp_all

theorem pair_from_secret_error
    (gt : Bytes → Option (Except CsrfError CsrfToken))
    (gc : Bytes → Int → Option (Except CsrfError CsrfCookie))
    (s : Bytes) (ttl : Int) (rt : Except CsrfError CsrfToken)
    (rc : Except CsrfError CsrfCookie)
    (hgt : gt s = some rt) (hgc : gc s ttl = some rc)
    (h : (∃ e, rt = .error e) ∨ (∃ e, rc = .error e)) :
    pair_from_secret gt gc s ttl = some (.error .ValidationFailure) := by
  simp only [pair_from_secret, Option.pure_def, Option.bind_eq_bind]
  rw [hgt, Option.some_bind, hgc, Option.some_bind]
  rcases h with ⟨e, rfl⟩ | ⟨e, rfl⟩
  · cases rc <;> rfl
  · cases rt <;> rfl

/-- C6: `generate_token_pair` hands the one secret to both `generate_token`
and `generate_cookie` (when the pair is `Ok`, each half is exactly the
corresponding generator's `Ok` output on that secret), and if either
generator returns an error — of either kind — the pair call returns
`Err(ValidationFailure)`, not the underlying error and not
`InternalError`. -/
theorem token_pair_same_secret_and_error_collapse :
    (∀ (gt : Bytes → Option (Except CsrfError CsrfToken))
       (gc : Bytes → Int → Option (Except CsrfError CsrfCookie))
       (rd : Option Bytes) (s : Bytes) (ttl : Int),
      generate_token_pair gt gc rd (some s) ttl =
        pair_from_secret gt gc s ttl) ∧
    (∀ (gt : Bytes → Option (Except CsrfError CsrfToken))
       (gc : Bytes → Int → Option (Except CsrfError CsrfCookie))
       (rd : Option Bytes) (s : Bytes) (ttl : Int) (t : CsrfToken)
       (c : CsrfCookie),
      generate_token_pair gt gc rd (some s) ttl = some (.ok (t, c)) →
      gt s = some (.ok t) ∧ gc s ttl = some (.ok c)) ∧
    (∀ (gt : Bytes → Option (Except CsrfError CsrfToken))
       (gc : Bytes → Int → Option (Except CsrfError CsrfCookie))
       (rd : Option Bytes) (s : Bytes) (ttl : Int)
       (rt : Except CsrfError CsrfToken) (rc : Except CsrfError CsrfCookie),
      gt s = some rt → gc s ttl = some rc →
      ((∃ e, rt = .error e) ∨ (∃ e, rc = .error e)) →
      generate_token_pair gt gc rd (some s) ttl =
        some (.error .ValidationFailure)) :=
  ⟨fun _ _ _ _ _ => rfl,
   fun gt gc _ s ttl t c h => pair_from_secret_ok_inv gt gc s ttl t c h,
   fun gt gc _ s ttl rt rc hgt hgc h =>
     pair_from_secret_error gt gc s ttl rt rc hgt hgc h⟩

set_option maxRecDepth 20000 in
/-- Witness for C6: a successful pair under the constant MAC shares its
secret; a failing `generate_token` (internal error) collapses to
`ValidationFailure`. -/
theorem token_pair_same_secret_and_error_collapse_witness :
    (generate_token_pair zeroMac.generate_token (zeroMac.generate_cookie 0)
        none (some (List.replicate 64 1)) 1 =
      pair_from_secret zeroMac.generate_token (zeroMac.generate_cookie 0)
        (List.replicate 64 1) 1) ∧
    (zeroMac.generate_token (List.replicate 64 1) =
        some (.ok ⟨List.replicate 64 1 ++ List.replicate 32 0⟩) ∧
      zeroMac.generate_cookie 0 (List.replicate 64 1) 1 =
        some (.ok ⟨List.replicate 64 1 ++ i64ToLeBytes 1 ++
          List.replicate 32 0⟩)) ∧
    (generate_token_pair (fun _ => some (.error .InternalError))
        (zeroMac.generate_cookie 0) none (some (List.replicate 64 1)) 1 =
      some (.error .ValidationFailure)) :=
  ⟨token_pair_same_secret_and_error_collapse.1 zeroMac.generate_token
      (zeroMac.generate_cookie 0) none (List.replicate 64 1) 1,
   token_pair_same_secret_and_error_collapse.2.1 zeroMac.generate_token
      (zeroMac.generate_cookie 0) none (List.replicate 64 1) 1
      ⟨List.replicate 64 1 ++ List.replicate 32 0⟩
      ⟨List.replicate 64 1 ++ i64ToLeBytes 1 ++ List.replicate 32 0⟩
      (by decide),
   token_pair_same_secret_and_error_collapse.2.2
      (fun _ => some (.error .InternalError)) (zeroMac.generate_cookie 0)
      none (List.replicate 64 1) 1 (.error .InternalError)
      (.ok ⟨List.replicate 64 1 ++ i64ToLeBytes 1 ++ List.replicate 32 0⟩)
      rfl (by decide) (Or.inl ⟨.InternalError, rfl⟩)⟩

/-- C7: when `generate_token_pair` is given `previous_token_value = some
secret`, the returned token and cookie both encode exactly that secret —
parsing each recovers it — so re-issuing a cookie does not invalidate a
token already rendered with the same secret; when given `none`, the secret
is the 64 fresh bytes drawn from the random source (the call reduces to
`pair_from_secret` on the drawn bytes, and a failed draw yields
`InternalError`). -/
theorem token_pair_reuses_previous_secret :
    (∀ (gt : Bytes → Option (Except CsrfError CsrfToken))
       (gc : Bytes → Int → Option (Except CsrfError CsrfCookie))
       (fresh : Bytes) (ttl : Int),
      generate_token_pair gt gc (some fresh) none ttl =
        pair_from_secret gt gc fresh ttl) ∧
    (∀ (gt : Bytes → Option (Except CsrfError CsrfToken))
       (gc : Bytes → Int → Option (Except CsrfError CsrfCookie)) (ttl : Int),
      generate_token_pair gt gc none none ttl =
        some (.error .InternalError)) ∧
    (∀ (p : HmacCsrfProtection) (now : Int) (rd : Option Bytes) (s : Bytes)
       (ttl : Int) (t : CsrfToken) (c : CsrfCookie),
      s.length = 64 → (∀ m, (p.hmacSha256 m).length = 32) →
      generate_token_pair p.generate_token (p.generate_cookie now) rd (some s)
        ttl = some (.ok (t, c)) →
      p.parse_token t.bytes = some (.ok ⟨s⟩) ∧
      ∃ e, p.parse_cookie c.bytes = some (.ok ⟨e, s⟩)) ∧
    (∀ (p : AesGcmCsrfProtection) (now : Int) (rd : Option Bytes)
       (nonce1 pad1 nonce2 pad2 s : Bytes) (ttl : Int) (t : CsrfToken)
       (c : CsrfCookie),
      nonce1.length = 12 → pad1.length = 16 → nonce2.length = 12 →
      pad2.length = 16 → s.length = 64 →
      (∀ n pt, ((p.aead n).encrypt pt).1.length = pt.length) →
      (∀ n pt, ((p.aead n).encrypt pt).2.length = 16) →
      (∀ n pt, (p.aead n).decrypt ((p.aead n).encrypt pt).1
        ((p.aead n).encrypt pt).2 = some pt) →
      generate_token_pair (p.generate_token (some nonce1) (some pad1))
        (p.generate_cookie now (some nonce2) (some pad2)) rd (some s) ttl =
        some (.ok (t, c)) →
      p.parse_token t.bytes = some (.ok ⟨s⟩) ∧
      ∃ e, p.parse_cookie c.bytes = some (.ok ⟨e, s⟩)) ∧
    (∀ (p : ChaCha20Poly1305CsrfProtection) (now : Int) (rd : Option Bytes)
       (nonce1 pad1 nonce2 pad2 s : Bytes) (ttl : Int) (t : CsrfToken)
       (c : CsrfCookie),
      nonce1.length = 8 → pad1.length = 16 → nonce2.length = 8 →
      pad2.length = 16 → s.length = 64 →
      (∀ n pt, ((p.aead n).encrypt pt).1.length = pt.length) →
      (∀ n pt, ((p.aead n).encrypt pt).2.length = 16) →
      (∀ n pt, (p.aead n).decrypt ((p.aead n).encrypt pt).1
        ((p.aead n).encrypt pt).2 = some pt) →
      generate_token_pair (p.generate_token (some nonce1) (some pad1))
        (p.generate_cookie now (some nonce2) (some pad2)) rd (some s) ttl =
        some (.ok (t, c)) →
      p.parse_token t.bytes = some (.ok ⟨s⟩) ∧
      ∃ e, p.parse_cookie c.bytes = some (.ok ⟨e, s⟩)) := by
  refine ⟨fun _ _ _ _ => rfl, fun _ _ _ => rfl,
    fun p now rd s ttl t c h64 h32 h => ?_,
    fun p now rd nonce1 pad1 nonce2 pad2 s ttl t c hn1 hp1 hn2 hp2 h64 henc
      htag hdec h => ?_,
    fun p now rd nonce1 pad1 nonce2 pad2 s ttl t c hn1 hp1 hn2 hp2 h64 henc
      htag hdec h => ?_⟩
  · obtain ⟨hgt, hgc⟩ := pair_from_secret_ok_inv _ _ s ttl t c h
    rw [HmacCsrfProtection.hmac_generate_token_eq p s h64 (h32 _)] at hgt
    rw [HmacCsrfProtection.hmac_generate_cookie_eq p now s ttl h64 (h32 _)] at hgc
    simp only [Option.some.injEq, Except.ok.injEq] at hgt hgc
    cases hgt
    cases hgc
    exact ⟨HmacCsrfProtection.hmac_parse_token_roundtrip p s h64 (h32 _),
      ⟨i64OfLeBytes (i64ToLeBytes (now + ttl)),
        HmacCsrfProtection.hmac_parse_cookie_roundtrip p s _ h64
          (i64ToLeBytes_length _) (h32 _)⟩⟩
  · obtain ⟨hgt, hgc⟩ := pair_from_secret_ok_inv _ _ s ttl t c h
    have hct1 : ((p.aead nonce1).encrypt (pad1 ++ s)).1.length = 80 := by
      rw [henc]; simp [hp1, h64]
    have hct2 : ((p.aead nonce2).encrypt
        (pad2 ++ i64ToLeBytes (now + ttl) ++ s)).1.length = 88 := by
      rw [henc]; simp [hp2, h64, i64ToLeBytes_length]
    rw [AesGcmCsrfProtection.aes_generate_token_eq p nonce1 pad1 s hn1 hp1 h64
      hct1 (htag _ _)] at hgt
    rw [AesGcmCsrfProtection.aes_generate_cookie_eq p now nonce2 pad2 s ttl hn2
      hp2 h64 hct2 (htag _ _)] at hgc
    simp only [Option.some.injEq, Except.ok.injEq] at hgt hgc
    cases hgt
    cases hgc
    exact ⟨AesGcmCsrfProtection.aes_parse_token_eq p _ nonce1 _ pad1 s hct1 hn1
        (htag _ _) hp1 h64 (hdec _ _),
      ⟨i64OfLeBytes (i64ToLeBytes (now + ttl)),
        AesGcmCsrfProtection.aes_parse_cookie_eq p _ nonce2 _ pad2
          (i64ToLeBytes (now + ttl)) s hct2 hn2 (htag _ _) hp2
          (i64ToLeBytes_length _) h64 (hdec _ _)⟩⟩
  · obtain ⟨hgt, hgc⟩ := pair_from_secret_ok_inv _ _ s ttl t c h
    have hct1 : ((p.aead nonce1).encrypt (pad1 ++ s)).1.length = 80 := by
      rw [henc]; simp [hp1, h64]
    have hct2 : ((p.aead nonce2).encrypt
        (pad2 ++ i64ToLeBytes (now + ttl) ++ s)).1.length = 88 := by
      rw [henc]; simp [hp2, h64, i64ToLeBytes_length]
    rw [ChaCha20Poly1305CsrfProtection.chacha_generate_token_eq p nonce1 pad1 s hn1
      hp1 h64 hct1 (htag _ _)] at hgt
    rw [ChaCha20Poly1305CsrfProtection.chacha_generate_cookie_eq p now nonce2 pad2 s
      ttl hn2 hp2 h64 hct2 (htag _ _)] at hgc
    simp only [Option.some.injEq, Except.ok.injEq] at hgt hgc
    cases hgt
    cases hgc
    exact ⟨ChaCha20Poly1305CsrfProtection.chacha_parse_token_eq p _ nonce1 _ pad1 s
        hct1 hn1 (htag _ _) hp1 h64 (hdec _ _),
      ⟨i64OfLeBytes (i64ToLeBytes (now + ttl)),
        ChaCha20Poly1305CsrfProtection.chacha_parse_cookie_eq p _ nonce2 _ pad2
          (i64ToLeBytes (now + ttl)) s hct2 hn2 (htag _ _) hp2
          (i64ToLeBytes_length _) h64 (hdec _ _)⟩⟩

set_option maxRecDepth 40000 in
/-- Witness for C7: concrete reused secret under each backend, plus the
fresh-draw and failed-draw reductions. -/
theorem token_pair_reuses_previous_secret_witness :
    (generate_token_pair zeroMac.generate_token (zeroMac.generate_cookie 0)
        (some (List.replicate 64 1)) none 1 =
      pair_from_secret zeroMac.generate_token (zeroMac.generate_cookie 0)
        (List.replicate 64 1) 1) ∧
    (generate_token_pair zeroMac.generate_token (zeroMac.generate_cookie 0)
        none none 1 = some (.error .InternalError)) ∧
    (zeroMac.parse_token
        (CsrfToken.mk (List.replicate 64 1 ++ List.replicate 32 0)).bytes =
        some (.ok ⟨List.replicate 64 1⟩) ∧
      ∃ e, zeroMac.parse_cookie
        (CsrfCookie.mk (List.replicate 64 1 ++ i64ToLeBytes 1 ++
          List.replicate 32 0)).bytes = some (.ok ⟨e, List.replicate 64 1⟩)) ∧
    (idAes.parse_token
        (CsrfToken.mk ((List.replicate 16 2 ++ List.replicate 64 1) ++
          List.replicate 12 3 ++ List.replicate 16 7)).bytes =
        some (.ok ⟨List.replicate 64 1⟩) ∧
      ∃ e, idAes.parse_cookie
        (CsrfCookie.mk ((List.replicate 16 5 ++ i64ToLeBytes 1 ++
          List.replicate 64 1) ++ List.replicate 12 4 ++
          List.replicate 16 7)).bytes = some (.ok ⟨e, List.replicate 64 1⟩)) ∧
    (idChaCha.parse_token
        (CsrfToken.mk ((List.replicate 16 2 ++ List.replicate 64 1) ++
          List.replicate 8 3 ++ List.replicate 16 7)).bytes =
        some (.ok ⟨List.replicate 64 1⟩) ∧
      ∃ e, idChaCha.parse_cookie
        (CsrfCookie.mk ((List.replicate 16 5 ++ i64ToLeBytes 1 ++
          List.replicate 64 1) ++ List.replicate 8 4 ++
          List.replicate 16 7)).bytes = some (.ok ⟨e, List.replicate 64 1⟩)) :=
  ⟨token_pair_reuses_previous_secret.1 zeroMac.generate_token
      (zeroMac.generate_cookie 0) (List.replicate 64 1) 1,
   token_pair_reuses_previous_secret.2.1 zeroMac.generate_token
      (zeroMac.generate_cookie 0) 1,
   token_pair_reuses_previous_secret.2.2.1 zeroMac 0 none
      (List.replicate 64 1) 1
      (CsrfToken.mk (List.replicate 64 1 ++ List.replicate 32 0))
      (CsrfCookie.mk (List.replicate 64 1 ++ i64ToLeBytes 1 ++
        List.replicate 32 0))
      (by simp) (fun m => by simp [zeroMac]) (by decide),
   token_pair_reuses_previous_secret.2.2.2.1 idAes 0 none
      (List.replicate 12 3) (List.replicate 16 2) (List.replicate 12 4)
      (List.replicate 16 5) (List.replicate 64 1) 1
      (CsrfToken.mk ((List.replicate 16 2 ++ List.replicate 64 1) ++
        List.replicate 12 3 ++ List.replicate 16 7))
      (CsrfCookie.mk ((List.replicate 16 5 ++ i64ToLeBytes 1 ++
        List.replicate 64 1) ++ List.replicate 12 4 ++ List.replicate 16 7))
      (by simp) (by simp) (by simp) (by simp) (by simp)
      (fun n pt => by simp [idAes, idPrim])
      (fun n pt => by simp [idAes, idPrim])
      (fun n pt => by simp [idAes, idPrim]) (by decide),
   token_pair_reuses_previous_secret.2.2.2.2 idChaCha 0 none
      (List.replicate 8 3) (List.replicate 16 2) (List.replicate 8 4)
      (List.replicate 16 5) (List.replicate 64 1) 1
      (CsrfToken.mk ((List.replicate 16 2 ++ List.replicate 64 1) ++
        List.replicate 8 3 ++ List.replicate 16 7))
      (CsrfCookie.mk ((List.replicate 16 5 ++ i64ToLeBytes 1 ++
        List.replicate 64 1) ++ List.replicate 8 4 ++ List.replicate 16 7))
      (by simp) (by simp) (by simp) (by simp) (by simp)
      (fun n pt => by simp [idChaCha, idPrim])
      (fun n pt => by simp [idChaCha, idPrim])
      (fun n pt => by simp [idChaCha, idPrim]) (by decide)⟩

/-- C8: in the HMAC cookie wire format the expiry occupies bytes 64..72 as
the 8-byte little-endian two's-complement encoding of the signed 64-bit
`expires = now + ttl` (the source's `mem::transmute`, modelled here for the
little-endian targets the crate runs on), `parse_cookie` decodes those 8
bytes back to the same integer, and the layout is
`secret(64) ‖ expires_le(8) ‖ hmac-sha256 tag(32)`. -/
theorem hmac_cookie_expiry_little_endian_layout
    (p : HmacCsrfProtection) (now : Int) (s : Bytes) (ttl : Int)
    (h64 : s.length = 64) (h32 : ∀ m, (p.hmacSha256 m).length = 32)
    (hlo : -(2:Int)^63 ≤ now + ttl) (hhi : now + ttl < 2^63) :
    ∃ c, p.generate_cookie now s ttl = some (.ok c) ∧
      c.bytes = s ++ i64ToLeBytes (now + ttl) ++
        p.hmacSha256 (s ++ i64ToLeBytes (now + ttl)) ∧
      (i64ToLeBytes (now + ttl)).length = 8 ∧
      readRange? c.bytes 64 8 = some (i64ToLeBytes (now + ttl)) ∧
      i64OfLeBytes (i64ToLeBytes (now + ttl)) = now + ttl ∧
      p.parse_cookie c.bytes = some (.ok ⟨now + ttl, s⟩) := by
  refine ⟨⟨s ++ i64ToLeBytes (now + ttl) ++
      p.hmacSha256 (s ++ i64ToLeBytes (now + ttl))⟩,
    HmacCsrfProtection.hmac_generate_cookie_eq p now s ttl h64 (h32 _), rfl,
    i64ToLeBytes_length _,
    readRange?_eq _ s (i64ToLeBytes (now + ttl)) _ 64 8 rfl h64.symm
      (i64ToLeBytes_length _).symm,
    i64_le_roundtrip _ hlo hhi, ?_⟩
  have := HmacCsrfProtection.hmac_parse_cookie_roundtrip p s
    (i64ToLeBytes (now + ttl)) h64 (i64ToLeBytes_length _) (h32 _)
  rwa [i64_le_roundtrip _ hlo hhi] at this

set_option maxRecDepth 20000 in
/-- Witness for C8 at the constant MAC, `now = 999`, `ttl = 0`. -/
theorem hmac_cookie_expiry_little_endian_layout_witness :
    (List.replicate 64 1 : Bytes).length = 64 ∧
    -(2:Int)^63 ≤ 999 + 0 ∧ ((999 + 0 : Int) < 2^63) ∧
    ∃ c, zeroMac.generate_cookie 999 (List.replicate 64 1) 0 =
        some (.ok c) ∧
      c.bytes = List.replicate 64 1 ++ i64ToLeBytes (999 + 0) ++
        zeroMac.hmacSha256 (List.replicate 64 1 ++ i64ToLeBytes (999 + 0)) ∧
      (i64ToLeBytes (999 + 0)).length = 8 ∧
      readRange? c.bytes 64 8 = some (i64ToLeBytes (999 + 0)) ∧
      i64OfLeBytes (i64ToLeBytes (999 + 0)) = 999 + 0 ∧
      zeroMac.parse_cookie c.bytes =
        some (.ok ⟨999 + 0, List.replicate 64 1⟩) :=
  ⟨by simp, by norm_num, by norm_num,
   hmac_cookie_expiry_little_endian_layout zeroMac 999 (List.replicate 64 1) 0
     (by simp) (fun m => by simp [zeroMac]) (by norm_num) (by norm_num)⟩

/-- The identity AEAD returns a plaintext of the ciphertext's length. -/
theorem idPrim_decrypt_length (ct tag pt : Bytes)
    (h : idPrim.decrypt ct tag = some pt) : pt.length = ct.length := by
  simp only [idPrim] at h
  split at h
  · cases h; rfl
  · cases h

/-- C9: every `parse_token` / `parse_cookie` is total on arbitrary
attacker-controlled input: for every byte string of any length and content
the result is `Ok` or `Err(ValidationFailure)` — never a panic (`none` in
this model, i.e. no out-of-bounds access after the length check) and never
`InternalError`.  For the AEAD backends the hypothesis is the library
contract that a successful decryption fills the caller's
ciphertext-length buffer. -/
theorem parse_total_on_arbitrary_input :
    (∀ (p : HmacCsrfProtection) (b : Bytes),
      p.parse_token b = some (.error .ValidationFailure) ∨
      ∃ v, p.parse_token b = some (.ok v)) ∧
    (∀ (p : HmacCsrfProtection) (b : Bytes),
      p.parse_cookie b = some (.error .ValidationFailure) ∨
      ∃ v, p.parse_cookie b = some (.ok v)) ∧
    (∀ (p : AesGcmCsrfProtection) (b : Bytes),
      (∀ n ct tag pt, (p.aead n).decrypt ct tag = some pt →
        pt.length = ct.length) →
      (p.parse_token b = some (.error .ValidationFailure) ∨
        ∃ v, p.parse_token b = some (.ok v))) ∧
    (∀ (p : AesGcmCsrfProtection) (b : Bytes),
      (∀ n ct tag pt, (p.aead n).decrypt ct tag = some pt →
        pt.length = ct.length) →
      (p.parse_cookie b = some (.error .ValidationFailure) ∨
        ∃ v, p.parse_cookie b = some (.ok v))) ∧
    (∀ (p : ChaCha20Poly1305CsrfProtection) (b : Bytes),
      (∀ n ct tag pt, (p.aead n).decrypt ct tag = some pt →
        pt.length = ct.length) →
      (p.parse_token b = some (.error .ValidationFailure) ∨
        ∃ v, p.parse_token b = some (.ok v))) ∧
    (∀ (p : ChaCha20Poly1305CsrfProtection) (b : Bytes),
      (∀ n ct tag pt, (p.aead n).decrypt ct tag = some pt →
        pt.length = ct.length) →
      (p.parse_cookie b = some (.error .ValidationFailure) ∨
        ∃ v, p.parse_cookie b = some (.ok v))) := by
  refine ⟨fun p b => ?_, fun p b => ?_, fun p b hdlen => ?_,
    fun p b hdlen => ?_, fun p b hdlen => ?_, fun p b hdlen => ?_⟩
  · by_cases hb : b.length = 96
    · have r1 := readRange?_isSome b 0 64 (by omega)
      have r2 := readRange?_isSome b 64 32 (by omega)
      simp only [HmacCsrfProtection.parse_token, Option.pure_def,
        Option.bind_eq_bind]
      rw [if_neg (by simp [hb]), r1, Option.some_bind, r2, Option.some_bind]
      by_cases hm : p.hmacSha256 ((b.drop 0).take 64) = (b.drop 64).take 32
      · right
        exact ⟨⟨(b.drop 0).take 64⟩, by rw [if_neg (not_not_intro hm)]⟩
      · left
        rw [if_pos hm]
    · left
      simp [HmacCsrfProtection.parse_token, hb]
  · by_cases hb : b.length = 104
    · have r1 := readRange?_isSome b 0 64 (by omega)
      have r2 := readRange?_isSome b 64 8 (by omega)
      have r3 := readRange?_isSome b 72 32 (by omega)
      simp only [HmacCsrfProtection.parse_cookie, Option.pure_def,
        Option.bind_eq_bind]
      rw [if_neg (by simp [hb]), r1, Option.some_bind, r2, Option.some_bind,
        r3, Option.some_bind]
      by_cases hm : p.hmacSha256 ((b.drop 0).take 64 ++ (b.drop 64).take 8) =
          (b.drop 72).take 32
      · right
        exact ⟨⟨i64OfLeBytes ((b.drop 64).take 8), (b.drop 0).take 64⟩,
          by rw [if_neg (not_not_intro hm)]⟩
      · left
        rw [if_pos hm]
    · left
      simp [HmacCsrfProtection.parse_cookie, hb]
  · by_cases hb : b.length = 108
    · have r1 := readRange?_isSome b 0 80 (by omega)
      have r2 := readRange?_isSome b 80 12 (by omega)
      have r3 := readRange?_isSome b 92 16 (by omega)
      simp only [AesGcmCsrfProtection.parse_token, Option.pure_def,
        Option.bind_eq_bind]
      rw [if_neg (by simp [hb]), r1, Option.some_bind, r2, Option.some_bind,
        r3, Option.some_bind]
      cases hd : (p.aead ((b.drop 80).take 12)).decrypt ((b.drop 0).take 80)
          ((b.drop 92).take 16) with
      | none => left; rfl
      | some pt =>
        right
        have hptlen : pt.length = 80 := by
          rw [hdlen _ _ _ _ hd]
          simp
          omega
        have r4 := readRange?_isSome pt 16 64 (by omega)
        refine ⟨⟨(pt.drop 16).take 64⟩, ?_⟩
        dsimp only
        rw [r4, Option.some_bind]
    · left
      simp [AesGcmCsrfProtection.parse_token, hb]
  · by_cases hb : b.length = 116
    · have r1 := readRange?_isSome b 0 88 (by omega)
      have r2 := readRange?_isSome b 88 12 (by omega)
      have r3 := readRange?_isSome b 100 16 (by omega)
      simp only [AesGcmCsrfProtection.parse_cookie, Option.pure_def,
        Option.bind_eq_bind]
      rw [if_neg (by simp [hb]), r1, Option.some_bind, r2, Option.some_bind,
        r3, Option.some_bind]
      cases hd : (p.aead ((b.drop 88).take 12)).decrypt ((b.drop 0).take 88)
          ((b.drop 100).take 16) with
      | none => left; rfl
      | some pt =>
        right
        have hptlen : pt.length = 88 := by
          rw [hdlen _ _ _ _ hd]
          simp
          omega
        have r4 := readRange?_isSome pt 16 8 (by omega)
        have r5 := readRange?_isSome pt 24 64 (by omega)
        refine ⟨⟨i64OfLeBytes ((pt.drop 16).take 8), (pt.drop 24).take 64⟩, ?_⟩
        dsimp only
        rw [r4, Option.some_bind, r5, Option.some_bind]
    · left
      simp [AesGcmCsrfProtection.parse_cookie, hb]
  · by_cases hb : b.length = 104
    · have r1 := readRange?_isSome b 0 80 (by omega)
      have r2 := readRange?_isSome b 80 8 (by omega)
      have r3 := readRange?_isSome b 88 16 (by omega)
      simp only [ChaCha20Poly1305CsrfProtection.parse_token, Option.pure_def,
        Option.bind_eq_bind]
      rw [if_neg (by simp [hb]), r1, Option.some_bind, r2, Option.some_bind,
        r3, Option.some_bind]
      cases hd : (p.aead ((b.drop 80).take 8)).decrypt ((b.drop 0).take 80)
          ((b.drop 88).take 16) with
      | none => left; rfl
      | some pt =>
        right
        have hptlen : pt.length = 80 := by
          rw [hdlen _ _ _ _ hd]
          simp
          omega
        have r4 := readRange?_isSome pt 16 64 (by omega)
        refine ⟨⟨(pt.drop 16).take 64⟩, ?_⟩
        dsimp only
        rw [r4, Option.some_bind]
    · left
      simp [ChaCha20Poly1305CsrfProtection.parse_token, hb]
  · by_cases hb : b.length = 112
    · have r1 := readRange?_isSome b 0 88 (by omega)
      have r2 := readRange?_isSome b 88 8 (by omega)
      have r3 := readRange?_isSome b 96 16 (by omega)
      simp only [ChaCha20Poly1305CsrfProtection.parse_cookie, Option.pure_def,
        Option.bind_eq_bind]
      rw [if_neg (by simp [hb]), r1, Option.some_bind, r2, Option.some_bind,
        r3, Option.some_bind]
      cases hd : (p.aead ((b.drop 88).take 8)).decrypt ((b.drop 0).take 88)
          ((b.drop 96).take 16) with
      | none => left; rfl
      | some pt =>
        right
        have hptlen : pt.length = 88 := by
          rw [hdlen _ _ _ _ hd]
          simp
          omega
        have r4 := readRange?_isSome pt 16 8 (by omega)
        have r5 := readRange?_isSome pt 24 64 (by omega)
        refine ⟨⟨i64OfLeBytes ((pt.drop 16).take 8), (pt.drop 24).take 64⟩, ?_⟩
        dsimp only
        rw [r4, Option.some_bind, r5, Option.some_bind]
    · left
      simp [ChaCha20Poly1305CsrfProtection.parse_cookie, hb]

/-- Witness for C9 at a 104-byte input (valid ChaCha token length, valid
HMAC cookie length, wrong length for the others) under the concrete
backends. -/
theorem parse_total_on_arbitrary_input_witness :
    (zeroMac.parse_token (List.replicate 104 9) =
        some (.error .ValidationFailure) ∨
      ∃ v, zeroMac.parse_token (List.replicate 104 9) = some (.ok v)) ∧
    (zeroMac.parse_cookie (List.replicate 104 9) =
        some (.error .ValidationFailure) ∨
      ∃ v, zeroMac.parse_cookie (List.replicate 104 9) = some (.ok v)) ∧
    (idAes.parse_token (List.replicate 104 9) =
        some (.error .ValidationFailure) ∨
      ∃ v, idAes.parse_token (List.replicate 104 9) = some (.ok v)) ∧
    (idAes.parse_cookie (List.replicate 104 9) =
        some (.error .ValidationFailure) ∨
      ∃ v, idAes.parse_cookie (List.replicate 104 9) = some (.ok v)) ∧
    (idChaCha.parse_token (List.replicate 104 9) =
        some (.error .ValidationFailure) ∨
      ∃ v, idChaCha.parse_token (List.replicate 104 9) = some (.ok v)) ∧
    (idChaCha.parse_cookie (List.replicate 104 9) =
        some (.error .ValidationFailure) ∨
      ∃ v, idChaCha.parse_cookie (List.replicate 104 9) = some (.ok v)) :=
  ⟨parse_total_on_arbitrary_input.1 zeroMac (List.replicate 104 9),
   parse_total_on_arbitrary_input.2.1 zeroMac (List.replicate 104 9),
   parse_total_on_arbitrary_input.2.2.1 idAes (List.replicate 104 9)
     (fun _ ct tag pt h => idPrim_decrypt_length ct tag pt h),
   parse_total_on_arbitrary_input.2.2.2.1 idAes (List.replicate 104 9)
     (fun _ ct tag pt h => idPrim_decrypt_length ct tag pt h),
   parse_total_on_arbitrary_input.2.2.2.2.1 idChaCha (List.replicate 104 9)
     (fun _ ct tag pt h => idPrim_decrypt_length ct tag pt h),
   parse_total_on_arbitrary_input.2.2.2.2.2 idChaCha (List.replicate 104 9)
     (fun _ ct tag pt h => idPrim_decrypt_length ct tag pt h)⟩
